import Mathlib

/-!
# ReactPhysics3D: collision bodies, mass values and the collision pipeline

A shallow embedding of `src/body/CollisionBody.h`,
`sources/reactphysics3d/physics/Kilogram.cpp` and
`testbed/scenes/collisionshapes/CollisionShapesScene.cpp`, together with models of the
pipeline stages whose code is not among the sources at hand.
-/

namespace reactphysics3d

/-! ## Body types (`CollisionBody.h`) -/

/-- Enumeration for the type of a body: `enum class BodyType {STATIC, KINEMATIC, DYNAMIC}`. -/
inductive BodyType where
  | STATIC
  | KINEMATIC
  | DYNAMIC
deriving DecidableEq, Repr

/-- Modelled from the spec: the collision rule of one body type towards another. The
function that applies it is not in `CollisionBody.h`; the rule is the one written on the
enumeration: a static body does not collide with other static or kinematic bodies, a
kinematic body does not collide with other static or kinematic bodies, a dynamic body can
collide with other dynamic, static or kinematic bodies. -/
def BodyType.doesNotCollideWith : BodyType → BodyType → Bool
  | .STATIC, .STATIC => true
  | .STATIC, .KINEMATIC => true
  | .STATIC, .DYNAMIC => false
  | .KINEMATIC, .STATIC => true
  | .KINEMATIC, .KINEMATIC => true
  | .KINEMATIC, .DYNAMIC => false
  | .DYNAMIC, _ => false

/-- Modelled from the spec: a pair of bodies is eligible to collide when neither body's rule
excludes the other ("STATIC/KINEMATIC never collide with each other"). -/
def pairEligible (a b : BodyType) : Bool :=
  !(a.doesNotCollideWith b) && !(b.doesNotCollideWith a)

/-! ## Doubles -/

/-- An IEEE 754 binary64 datum: sign bit, 11-bit biased exponent, 52-bit fraction. -/
structure Double where
  sign : Bool
  expo : Fin 2048
  frac : Fin 4503599627370496
deriving DecidableEq

/-- What a binary64 datum denotes. -/
inductive DoubleValue where
  | nan
  | negInf
  | posInf
  | finite (q : ℚ)
deriving DecidableEq

/-- Magnitude of a datum whose exponent field is not all ones. -/
def Double.magnitude (d : Double) : ℚ :=
  if d.expo.val = 0 then (d.frac.val : ℚ) / 2 ^ 1074
  else ((4503599627370496 + d.frac.val : ℕ) : ℚ) * 2 ^ d.expo.val / 2 ^ 1075

/-- Denotation of a binary64 datum (both zeros denote the rational 0). -/
def Double.toValue (d : Double) : DoubleValue :=
  if d.expo.val = 2047 then
    if d.frac.val = 0 then (if d.sign then .negInf else .posInf) else .nan
  else .finite (if d.sign then -d.magnitude else d.magnitude)

/-- IEEE comparison `a >= b` on denotations: false as soon as one side is a NaN. -/
def DoubleValue.ge : DoubleValue → DoubleValue → Bool
  | .nan, _ => false
  | _, .nan => false
  | .posInf, _ => true
  | _, .negInf => true
  | .negInf, _ => false
  | _, .posInf => false
  | .finite x, .finite y => decide (y ≤ x)

/-- IEEE comparison `a < b` on denotations: false as soon as one side is a NaN. -/
def DoubleValue.lt : DoubleValue → DoubleValue → Bool
  | .nan, _ => false
  | _, .nan => false
  | .posInf, _ => false
  | _, .negInf => false
  | .negInf, _ => true
  | _, .posInf => true
  | .finite x, .finite y => decide (x < y)

/-- The C++ expression `a >= b` on doubles. -/
def Double.ge (a b : Double) : Bool := a.toValue.ge b.toValue

/-- The C++ expression `a < b` on doubles. -/
def Double.lt (a b : Double) : Bool := a.toValue.lt b.toValue

/-- The C++ expression `a > b` on doubles. -/
def Double.gt (a b : Double) : Bool := b.toValue.lt a.toValue

/-- The int literal `0` converted to double, and the literal `0.0`: positive zero. -/
def Double.zero : Double := ⟨false, 0, 0⟩

/-- The double `1.0`. -/
def Double.one : Double := ⟨false, 1023, 0⟩

/-- The double `-1.0`. -/
def Double.negOne : Double := ⟨true, 1023, 0⟩

/-! ## Kilogram (`Kilogram.cpp`) -/

/-- Exceptions thrown by the constructors. -/
inductive Exception where
  | invalid_argument (what : String)
deriving DecidableEq

/-- A mass value in kilograms: the single attribute `value`. -/
structure Kilogram where
  value : Double
deriving DecidableEq

/-- Constructor `Kilogram::Kilogram()`. -/
def Kilogram.newDefault : Kilogram := ⟨Double.zero⟩

/-- Constructor with arguments `Kilogram::Kilogram(double value)`. -/
def Kilogram.new (value : Double) : Except Exception Kilogram :=
  if Double.ge value Double.zero then
    .ok ⟨value⟩
  else
    .error (.invalid_argument
      "Exception in Kilogram : Wrong argument, a mass value has to be positive")

/-- Copy-constructor `Kilogram::Kilogram(const Kilogram& mass)`. -/
def Kilogram.newCopy (mass : Kilogram) : Kilogram := ⟨mass.value⟩

/-! ## Axis-aligned boxes and collision bodies (`CollisionBody.h`) -/

/-- A vector of three `decimal` coordinates. The engine's `decimal` numbers are read as exact
rationals throughout: rounding, infinities and NaN are left out of the model. -/
structure Vector3 where
  x : ℚ
  y : ℚ
  z : ℚ
deriving DecidableEq

/-- An axis-aligned bounding box in world space (`collision/shapes/AABB.h`, of which only the
uses in `CollisionBody.h` are at hand): its minimum and maximum corners. -/
structure AABB where
  mMinCoordinates : Vector3
  mMaxCoordinates : Vector3
deriving DecidableEq

/-- Modelled from the spec: `AABB::testCollision`, whose body is not in `CollisionBody.h`.
Two boxes overlap when their extents intersect on each of the three axes. -/
def AABB.testCollision (a aabb : AABB) : Bool :=
  if a.mMaxCoordinates.x < aabb.mMinCoordinates.x ∨
      aabb.mMaxCoordinates.x < a.mMinCoordinates.x then false
  else if a.mMaxCoordinates.y < aabb.mMinCoordinates.y ∨
      aabb.mMaxCoordinates.y < a.mMinCoordinates.y then false
  else if a.mMaxCoordinates.z < aabb.mMinCoordinates.z ∨
      aabb.mMaxCoordinates.z < a.mMinCoordinates.z then false
  else true

/-- Modelled from the spec: merging a box with another one gives the smallest box that
encloses both (`AABB::mergeWithAABB`, not in `CollisionBody.h`). -/
def AABB.mergeWithAABB (a aabb : AABB) : AABB :=
  { mMinCoordinates :=
      ⟨min a.mMinCoordinates.x aabb.mMinCoordinates.x,
       min a.mMinCoordinates.y aabb.mMinCoordinates.y,
       min a.mMinCoordinates.z aabb.mMinCoordinates.z⟩
    mMaxCoordinates :=
      ⟨max a.mMaxCoordinates.x aabb.mMaxCoordinates.x,
       max a.mMaxCoordinates.y aabb.mMaxCoordinates.y,
       max a.mMaxCoordinates.z aabb.mMaxCoordinates.z⟩ }

/-- A proxy shape of a body, as far as `CollisionBody.h` uses it: the world-space box of its
collision shape at the current transform. -/
structure ProxyShape where
  worldAABB : AABB
deriving DecidableEq

/-- The attributes of a `CollisionBody` that the operations below read. -/
structure CollisionBody where
  mID : Nat
  mType : BodyType
  mIsActive : Bool
  mIsSleeping : Bool
  mProxyCollisionShapes : List ProxyShape
deriving DecidableEq

/-- Accessor `CollisionBody::getType`. -/
def CollisionBody.getType (body : CollisionBody) : BodyType := body.mType

/-- Modelled from the spec: `CollisionBody::getAABB` is only declared in `CollisionBody.h`
("Compute and return the AABB of the body by merging all proxy shapes AABBs"). A body
without proxy shape gets the default box at the origin. -/
def CollisionBody.getAABB (body : CollisionBody) : AABB :=
  match body.mProxyCollisionShapes with
  | [] => ⟨⟨0, 0, 0⟩, ⟨0, 0, 0⟩⟩
  | shape :: shapes =>
    shapes.foldl (fun bodyAABB s => bodyAABB.mergeWithAABB s.worldAABB) shape.worldAABB

/-- Inline method `CollisionBody::testAABBOverlap(const AABB& worldAABB) const`, in
state-passing form: the returned pair is the result and the body after the call. -/
def CollisionBody.testAABBOverlap (body : CollisionBody) (worldAABB : AABB) :
    Bool × CollisionBody :=
  (worldAABB.testCollision body.getAABB, body)

/-- Modelled from the spec: the filter between broad phase and narrow phase, which keeps
the candidate pairs whose two bodies are eligible to collide. -/
def narrowPhaseInput (pairs : List (CollisionBody × CollisionBody)) :
    List (CollisionBody × CollisionBody) :=
  pairs.filter (fun p => pairEligible p.1.getType p.2.getType)

/-! ## Broad phase -/

/-- Modelled from the spec: `a` encloses `aabb` on every axis (the test "its exact AABB
exits its padded placement AABB" of the broad phase, negated). -/
def AABB.contains (a aabb : AABB) : Bool :=
  decide (a.mMinCoordinates.x ≤ aabb.mMinCoordinates.x) &&
  decide (a.mMinCoordinates.y ≤ aabb.mMinCoordinates.y) &&
  decide (a.mMinCoordinates.z ≤ aabb.mMinCoordinates.z) &&
  decide (aabb.mMaxCoordinates.x ≤ a.mMaxCoordinates.x) &&
  decide (aabb.mMaxCoordinates.y ≤ a.mMaxCoordinates.y) &&
  decide (aabb.mMaxCoordinates.z ≤ a.mMaxCoordinates.z)

/-- Modelled from the spec: the box extended by the margin on every side ("with an extension
margin so minor motion does not invalidate broad-phase placement every step"). -/
def AABB.inflate (a : AABB) (gap : ℚ) : AABB :=
  { mMinCoordinates := ⟨a.mMinCoordinates.x - gap, a.mMinCoordinates.y - gap,
      a.mMinCoordinates.z - gap⟩
    mMaxCoordinates := ⟨a.mMaxCoordinates.x + gap, a.mMaxCoordinates.y + gap,
      a.mMaxCoordinates.z + gap⟩ }

/-- Modelled from the spec: what the broad phase keeps for one proxy shape: its opaque
handle, its exact world box, and the padded box under which it is placed in the index. -/
structure BroadPhaseProxy where
  broadPhaseID : Nat
  exactAABB : AABB
  placementAABB : AABB
deriving DecidableEq

/-- Modelled from the spec: the broad phase, whose code is not among the sources: a spatial
index over the proxy-shape boxes (kept here as the sequence of its entries) and the
configured margin. -/
structure BroadPhase where
  aabbMargin : ℚ
  proxies : List BroadPhaseProxy
deriving DecidableEq

/-- Modelled from the spec: insert a proxy; it is placed under its padded box. -/
def BroadPhase.addProxy (bp : BroadPhase) (id : Nat) (aabb : AABB) : BroadPhase :=
  { bp with proxies := bp.proxies ++ [⟨id, aabb, aabb.inflate bp.aabbMargin⟩] }

/-- Modelled from the spec: remove a proxy from the index. -/
def BroadPhase.removeProxy (bp : BroadPhase) (id : Nat) : BroadPhase :=
  { bp with proxies := bp.proxies.filter (fun p => p.broadPhaseID != id) }

/-- Modelled from the spec: move a proxy ("a proxy is only relocated in the structure when
its exact AABB exits its padded placement AABB, not every step"). -/
def BroadPhase.moveProxy (bp : BroadPhase) (id : Nat) (aabb : AABB) : BroadPhase :=
  { bp with proxies := bp.proxies.map (fun p =>
      if p.broadPhaseID = id then
        if p.placementAABB.contains aabb then { p with exactAABB := aabb }
        else ⟨id, aabb, aabb.inflate bp.aabbMargin⟩
      else p) }

/-- Modelled from the spec: the incremental updates of the index (insert, remove,
move-proxy). -/
inductive BroadPhaseUpdate where
  | insert (id : Nat) (aabb : AABB)
  | remove (id : Nat)
  | move (id : Nat) (aabb : AABB)
deriving DecidableEq

/-- Modelled from the spec: apply one update. -/
def BroadPhase.update (bp : BroadPhase) : BroadPhaseUpdate → BroadPhase
  | .insert id aabb => bp.addProxy id aabb
  | .remove id => bp.removeProxy id
  | .move id aabb => bp.moveProxy id aabb

/-- Difference of two vectors. -/
def Vector3.sub (a b : Vector3) : Vector3 := ⟨a.x - b.x, a.y - b.y, a.z - b.z⟩

/-- Sum of two vectors. -/
def Vector3.add (a b : Vector3) : Vector3 := ⟨a.x + b.x, a.y + b.y, a.z + b.z⟩

/-- Cross product. -/
def Vector3.cross (a b : Vector3) : Vector3 :=
  ⟨a.y * b.z - a.z * b.y, a.z * b.x - a.x * b.z, a.x * b.y - a.y * b.x⟩

/-- Square of the length of a vector. -/
def Vector3.lengthSquare (a : Vector3) : ℚ := a.x * a.x + a.y * a.y + a.z * a.z

/-- Modelled from the spec: a contact point ("local-space anchor on each of the two shapes,
world penetration depth, accumulated normal/friction impulses"). -/
structure ContactPoint where
  localPointOnShape1 : Vector3
  localPointOnShape2 : Vector3
  penetrationDepth : ℚ
  normalImpulse : ℚ
  friction1Impulse : ℚ
  friction2Impulse : ℚ
deriving DecidableEq

/-- Modelled from the spec: one candidate point of the narrow phase, in local coordinates
of each shape, with its penetration depth. -/
structure ContactPointInfo where
  localPoint1 : Vector3
  localPoint2 : Vector3
  penetrationDepth : ℚ
deriving DecidableEq

/-- Modelled from the spec: the contact set the narrow phase returns for a pair that
collides: the two bodies and shapes, a normal, and the candidate points. -/
structure NarrowPhaseInfo where
  body1 : Nat
  body2 : Nat
  shape1 : Nat
  shape2 : Nat
  normal : Vector3
  points : List ContactPointInfo
deriving DecidableEq

/-- Modelled from the spec: the persistent record of one shape pair ("holding ≤4 contact
points, a shared normal reference direction, and accumulated impulse values"). -/
structure ContactManifold where
  body1 : Nat
  body2 : Nat
  shape1 : Nat
  shape2 : Nat
  normal : Vector3
  points : List ContactPoint
deriving DecidableEq

/-- Modelled from the spec: the largest number of contact points a manifold holds. -/
def MAX_CONTACT_POINTS_IN_MANIFOLD : Nat := 4

/-- Modelled from the spec: the old point whose anchor on the first shape is closest to the
given anchor, among those within the tolerance (given by its square). -/
def closestPoint (toleranceSquare : ℚ) (anchor : Vector3) :
    List ContactPoint → Option ContactPoint
  | [] => none
  | p :: ps =>
    let d := (p.localPointOnShape1.sub anchor).lengthSquare
    match closestPoint toleranceSquare anchor ps with
    | none => if d ≤ toleranceSquare then some p else none
    | some q =>
      if d ≤ (q.localPointOnShape1.sub anchor).lengthSquare then some p else some q

/-- Modelled from the spec: a new point takes the accumulated impulses of the old point it
is matched to, and starts from zero impulses when it is matched to none. -/
def mergePoint (toleranceSquare : ℚ) (old : List ContactPoint) (info : ContactPointInfo) :
    ContactPoint :=
  match closestPoint toleranceSquare info.localPoint1 old with
  | some q =>
    ⟨info.localPoint1, info.localPoint2, info.penetrationDepth, q.normalImpulse,
      q.friction1Impulse, q.friction2Impulse⟩
  | none => ⟨info.localPoint1, info.localPoint2, info.penetrationDepth, 0, 0, 0⟩

/-- Modelled from the spec: the sum of the cross products of consecutive anchors, starting
from `first` and closing the polygon on it; its length is twice the enclosed area. -/
def polygonVectorArea (first : Vector3) : List Vector3 → Vector3
  | [] => ⟨0, 0, 0⟩
  | [a] => a.cross first
  | a :: b :: rest => (a.cross b).add (polygonVectorArea first (b :: rest))

/-- Modelled from the spec: the measure by which subsets are compared: the square of twice
the area of the polygon whose corners are the anchors, in the order of the points. -/
def polygonAreaMeasure (points : List ContactPoint) : ℚ :=
  match points.map (fun p => p.localPointOnShape1) with
  | [] => 0
  | a :: rest => (polygonVectorArea a (a :: rest)).lengthSquare

/-- Modelled from the spec: the first of the candidate subsets whose polygon has the
largest area, starting from `best`. -/
def largestAreaSubset (best : List ContactPoint) :
    List (List ContactPoint) → List ContactPoint
  | [] => best
  | s :: rest =>
    largestAreaSubset (if polygonAreaMeasure best < polygonAreaMeasure s then s else best) rest

/-- Modelled from the spec: "if more than 4 candidate points exist, retain the subset that
maximizes the enclosed polygon area (a deterministic reduction rule)". -/
def reduceContactPoints (points : List ContactPoint) : List ContactPoint :=
  if points.length > MAX_CONTACT_POINTS_IN_MANIFOLD then
    largestAreaSubset (points.take MAX_CONTACT_POINTS_IN_MANIFOLD)
      (List.sublistsLen MAX_CONTACT_POINTS_IN_MANIFOLD points)
  else points

/-- Modelled from the spec: update a manifold from the narrow-phase output for its pair:
new points are matched to the old ones, unmatched old points are dropped, and the result is
reduced. -/
def ContactManifold.update (manifold : ContactManifold) (toleranceSquare : ℚ)
    (info : NarrowPhaseInfo) : ContactManifold :=
  { manifold with
    normal := info.normal
    points := reduceContactPoints (info.points.map (mergePoint toleranceSquare manifold.points)) }

/-- Modelled from the spec: create the manifold of a pair that had none. -/
def ContactManifold.create (toleranceSquare : ℚ) (info : NarrowPhaseInfo) : ContactManifold :=
  ContactManifold.update ⟨info.body1, info.body2, info.shape1, info.shape2, info.normal, []⟩
    toleranceSquare info

/-- Modelled from the spec: one step of the contact manifold manager: every pair reported
by the narrow phase gets its manifold updated, or created; the manifolds of the other pairs
are deleted. -/
def updateContactManifolds (manifolds : List ContactManifold) (toleranceSquare : ℚ)
    (narrowPhase : List NarrowPhaseInfo) : List ContactManifold :=
  narrowPhase.map (fun info =>
    match manifolds.find? (fun m => m.shape1 == info.shape1 && m.shape2 == info.shape2) with
    | some m => m.update toleranceSquare info
    | none => ContactManifold.create toleranceSquare info)

/-! ## Constraint solver: velocity iterations -/

/-- Modelled from the spec: the solver's record of one contact: the two bodies, the friction
coefficient of the pair, and the accumulated impulses along the normal and along the two
tangent directions of the box friction model. -/
structure ContactPointSolver where
  body1 : Nat
  body2 : Nat
  frictionCoefficient : ℚ
  normalImpulse : ℚ
  friction1Impulse : ℚ
  friction2Impulse : ℚ
deriving DecidableEq

/-- Modelled from the spec: what the spec leaves to the implementation of a
sequential-impulse solver, over a type `V` of body velocities: the impulse increment that
the current velocities ask for along the normal and along each tangent, and the velocities
after an impulse change has been applied to the two bodies. -/
structure ImpulseRule (V : Type) where
  deltaNormal : V → ContactPointSolver → ℚ
  deltaFriction1 : V → ContactPointSolver → ℚ
  deltaFriction2 : V → ContactPointSolver → ℚ
  applyNormal : V → ContactPointSolver → ℚ → V
  applyFriction1 : V → ContactPointSolver → ℚ → V
  applyFriction2 : V → ContactPointSolver → ℚ → V

/-- Clamp `x` between `lower` and `upper`. -/
def clamp (x lower upper : ℚ) : ℚ := max lower (min x upper)

/-- Modelled from the spec: the warm start seeds the solver's accumulated impulses from the
points persisted in a manifold. -/
def warmStart (frictionCoefficient : ℚ) (manifold : ContactManifold) : List ContactPointSolver :=
  manifold.points.map (fun p =>
    ⟨manifold.body1, manifold.body2, frictionCoefficient, p.normalImpulse, p.friction1Impulse,
      p.friction2Impulse⟩)

/-- Modelled from the spec: resolve one contact within a velocity iteration: first the
non-penetration constraint, whose accumulated impulse is kept at or above 0, then the two
friction constraints, whose accumulated impulses are kept within the friction coefficient
times the accumulated normal impulse. Each time the change of the accumulated impulse is
applied to the velocities. -/
def solveContact {V : Type} (rule : ImpulseRule V) (v : V) (c : ContactPointSolver) :
    V × ContactPointSolver :=
  let normalImpulse := max (c.normalImpulse + rule.deltaNormal v c) 0
  let v1 := rule.applyNormal v c (normalImpulse - c.normalImpulse)
  let c1 := { c with normalImpulse := normalImpulse }
  let limit := c1.frictionCoefficient * c1.normalImpulse
  let friction1Impulse := clamp (c1.friction1Impulse + rule.deltaFriction1 v1 c1) (-limit) limit
  let v2 := rule.applyFriction1 v1 c1 (friction1Impulse - c1.friction1Impulse)
  let c2 := { c1 with friction1Impulse := friction1Impulse }
  let friction2Impulse := clamp (c2.friction2Impulse + rule.deltaFriction2 v2 c2) (-limit) limit
  let v3 := rule.applyFriction2 v2 c2 (friction2Impulse - c2.friction2Impulse)
  (v3, { c2 with friction2Impulse := friction2Impulse })

/-- Modelled from the spec: one velocity iteration resolves every contact in turn, in the
fixed order of the contacts. -/
def solveVelocityIteration {V : Type} (rule : ImpulseRule V) :
    V → List ContactPointSolver → V × List ContactPointSolver
  | v, [] => (v, [])
  | v, c :: cs =>
    let r := solveContact rule v c
    let rs := solveVelocityIteration rule r.1 cs
    (rs.1, r.2 :: rs.2)

/-- Modelled from the spec: the velocity solve runs the configured number of iterations. -/
def solveVelocity {V : Type} (rule : ImpulseRule V) :
    Nat → V → List ContactPointSolver → V × List ContactPointSolver
  | 0, v, cs => (v, cs)
  | n + 1, v, cs =>
    let r := solveVelocity rule n v cs
    solveVelocityIteration rule r.1 r.2

/-- An impulse rule over a single scalar velocity, used to run the solver on an example: the
normal constraint asks for an accumulated impulse of 1, the friction constraints ask for
5 more and 5 less at every visit. -/
def exampleImpulseRule : ImpulseRule ℚ where
  deltaNormal := fun _ c => 1 - c.normalImpulse
  deltaFriction1 := fun _ _ => 5
  deltaFriction2 := fun _ _ => -5
  applyNormal := fun v _ d => v + d
  applyFriction1 := fun v _ d => v + d
  applyFriction2 := fun v _ d => v + d

/-- A contact between bodies 0 and 1 with friction coefficient 1/2 and no impulse yet. -/
def exampleContact : ContactPointSolver := ⟨0, 1, 1 / 2, 0, 0, 0⟩

/-- The example contact with the impulses 1, 1/2 and -1/2. -/
def exampleContactSolved : ContactPointSolver := ⟨0, 1, 1 / 2, 1, 1 / 2, -(1 / 2)⟩

/-! ## Island builder -/

/-- Modelled from the spec: a joint between two bodies, given by their handles. -/
structure Joint where
  body1 : Nat
  body2 : Nat
deriving DecidableEq

/-- Modelled from the spec: the bodies that islands are made of are the awake bodies that
are not static; a handle is the position of the body in the world's sequence of bodies. -/
def islandMember (bodies : List CollisionBody) (i : Nat) : Bool :=
  match bodies[i]? with
  | some body => body.getType != BodyType.STATIC && !body.mIsSleeping
  | none => false

/-- Modelled from the spec: the pairs of body handles joined by the contact manifolds and
the joints of the step. -/
def constraintPairs (manifolds : List ContactManifold) (joints : List Joint) :
    List (Nat × Nat) :=
  manifolds.map (fun m => (m.body1, m.body2)) ++ joints.map (fun j => (j.body1, j.body2))

/-- Modelled from the spec: the union of a union-find over body handles, kept as the map
from a handle to the representative of its set: the set of `a` is merged into the set
of `b`. -/
def unionBodies (label : Nat → Nat) (a b : Nat) : Nat → Nat :=
  fun i => if label i = label a then label b else label i

/-- Modelled from the spec: a contact or joint merges the sets of its two bodies when both
are awake and not static; a static or sleeping body merges nothing. -/
def linkConstraint (bodies : List CollisionBody) (label : Nat → Nat) (e : Nat × Nat) :
    Nat → Nat :=
  if islandMember bodies e.1 && islandMember bodies e.2 then unionBodies label e.1 e.2
  else label

/-- Modelled from the spec: the union-find after all constraints, starting from singletons. -/
def islandLabels (bodies : List CollisionBody) (edges : List (Nat × Nat)) : Nat → Nat :=
  edges.foldl (linkConstraint bodies) (fun i => i)

/-- Modelled from the spec: the islands of a step, each one the handles of its bodies. -/
def buildIslands (bodies : List CollisionBody) (manifolds : List ContactManifold)
    (joints : List Joint) : List (List Nat) :=
  let label := islandLabels bodies (constraintPairs manifolds joints)
  let members := (List.range bodies.length).filter (islandMember bodies)
  (members.map (fun i => members.filter (fun j => decide (label j = label i)))).dedup

/-- Two awake non-static bodies joined by a contact or a joint. -/
def Adjacent (bodies : List CollisionBody) (edges : List (Nat × Nat)) (a b : Nat) : Prop :=
  islandMember bodies a = true ∧ islandMember bodies b = true ∧
    ((a, b) ∈ edges ∨ (b, a) ∈ edges)

/-- Connected through a chain of contacts or joints between awake non-static bodies. -/
def Connected (bodies : List CollisionBody) (edges : List (Nat × Nat)) : Nat → Nat → Prop :=
  Relation.ReflTransGen (Adjacent bodies edges)

/-- The union-find separates exactly the handles that are not connected. -/
def LabelsAgree (bodies : List CollisionBody) (edges : List (Nat × Nat))
    (label : Nat → Nat) : Prop :=
  ∀ i j, label i = label j ↔ Connected bodies edges i j

/-- Three bodies: a static floor (handle 0) and two awake dynamic bodies (handles 1, 2). -/
def exampleBodies : List CollisionBody :=
  [⟨0, .STATIC, true, false, []⟩, ⟨1, .DYNAMIC, true, false, []⟩,
   ⟨2, .DYNAMIC, true, false, []⟩]

/-- The two dynamic bodies each touch the floor, and do not touch each other. -/
def exampleManifolds : List ContactManifold :=
  [⟨1, 0, 10, 0, ⟨0, 1, 0⟩, []⟩, ⟨0, 2, 0, 20, ⟨0, 1, 0⟩, []⟩]

/-! ## Testbed scene (`CollisionShapesScene.cpp`)

`float` and `decimal` values are read as exact rationals, and the vectors of the rendering
framework and of the engine are both `Vector3`. -/

/-- An orientation, as far as the scene uses it. -/
structure Quaternion where
  x : ℚ
  y : ℚ
  z : ℚ
  w : ℚ
deriving DecidableEq

/-- The orientation `rp3d::Quaternion::identity()`. -/
def Quaternion.identity : Quaternion := ⟨0, 0, 0, 1⟩

/-- A position and an orientation: `rp3d::Transform(position, orientation)`. -/
structure Transform where
  position : Vector3
  orientation : Quaternion
deriving DecidableEq

/-- The constants of `CollisionShapesScene.h` that `CollisionShapesScene.cpp` uses; the header
is not among the sources, so their values are parameters. -/
structure SceneConstants where
  NB_BOXES : Nat
  NB_CUBES : Nat
  NB_CONES : Nat
  NB_CYLINDERS : Nat
  NB_CAPSULES : Nat
  NB_MESHES : Nat
  NB_COMPOUND_SHAPES : Nat
  BOX_SIZE : Vector3
  SPHERE_RADIUS : ℚ
  CONE_RADIUS : ℚ
  CONE_HEIGHT : ℚ
  CYLINDER_RADIUS : ℚ
  CYLINDER_HEIGHT : ℚ
  CAPSULE_RADIUS : ℚ
  CAPSULE_HEIGHT : ℚ
  DUMBBELL_HEIGHT : ℚ
  FLOOR_SIZE : Vector3
  BOX_MASS : ℚ
  CONE_MASS : ℚ
  CYLINDER_MASS : ℚ
  CAPSULE_MASS : ℚ
  MESH_MASS : ℚ
  FLOOR_MASS : ℚ

/-- The functions `cos` and `sin` of the C library, as parameters. -/
structure FloatMath where
  cos : ℚ → ℚ
  sin : ℚ → ℚ

/-- The classes of the objects the scene creates. -/
inductive ObjectKind where
  | dumbbell
  | box
  | sphere
  | cone
  | cylinder
  | capsule
  | convexMesh
deriving DecidableEq

/-- Modelled from the spec: the parameters of a dynamics world that the scene reads and
writes (the recognized options of the configuration). -/
structure WorldSettings where
  isGravityEnabled : Bool
  gravity : Vector3
  isSleepingEnabled : Bool
  sleepLinearVelocity : ℚ
  sleepAngularVelocity : ℚ
  nbPositionSolverIterations : Nat
  nbVelocitySolverIterations : Nat
  timeBeforeSleep : ℚ
deriving DecidableEq

/-- The calls that change a dynamics world, in the spelling of `CollisionShapesScene.cpp`. -/
inductive WorldCall where
  | setIsGratityEnabled (isGravityEnabled : Bool)
  | setGravity (gravity : Vector3)
  | enableSleeping (isSleepingEnabled : Bool)
  | setSleepLinearVelocity (sleepLinearVelocity : ℚ)
  | setSleepAngularVelocity (sleepAngularVelocity : ℚ)
  | setNbIterationsPositionSolver (nbIterations : Nat)
  | setNbIterationsVelocitySolver (nbIterations : Nat)
  | setTimeBeforeSleep (timeBeforeSleep : ℚ)
  | update (timeStep : ℚ)
  | createRigidBody (id : Nat)
  | destroyRigidBody (id : Nat)
deriving DecidableEq

/-- Modelled from the spec: a rigid body of the world, as far as the scene touches it: its
handle, its type, its transform and the bounciness of its material (`none` while the scene
has not set it). -/
structure RigidBody where
  id : Nat
  type : BodyType
  transform : Transform
  bounciness : Option ℚ
deriving DecidableEq

/-- Modelled from the spec: `rp3d::DynamicsWorld`, whose code is not among the sources: its
parameters, its bodies, the handle of the next body, and the record of the calls that
changed it. -/
structure DynamicsWorld where
  settings : WorldSettings
  mRigidBodies : List RigidBody
  mCurrentBodyID : Nat
  calls : List WorldCall
deriving DecidableEq

/-- Modelled from the spec: `new rp3d::DynamicsWorld(gravity)`: the default parameters with
the given gravity, and no body. -/
def DynamicsWorld.new (defaults : WorldSettings) (gravity : Vector3) : DynamicsWorld :=
  ⟨{ defaults with gravity := gravity }, [], 0, []⟩

/-- Modelled from the spec: `DynamicsWorld::setIsGratityEnabled`. -/
def DynamicsWorld.setIsGratityEnabled (world : DynamicsWorld) (isGravityEnabled : Bool) :
    DynamicsWorld :=
  { world with
    settings := { world.settings with isGravityEnabled := isGravityEnabled }
    calls := world.calls ++ [.setIsGratityEnabled isGravityEnabled] }

/-- Modelled from the spec: `DynamicsWorld::setGravity`. -/
def DynamicsWorld.setGravity (world : DynamicsWorld) (gravity : Vector3) : DynamicsWorld :=
  { world with
    settings := { world.settings with gravity := gravity }
    calls := world.calls ++ [.setGravity gravity] }

/-- Modelled from the spec: `DynamicsWorld::enableSleeping`. -/
def DynamicsWorld.enableSleeping (world : DynamicsWorld) (isSleepingEnabled : Bool) :
    DynamicsWorld :=
  { world with
    settings := { world.settings with isSleepingEnabled := isSleepingEnabled }
    calls := world.calls ++ [.enableSleeping isSleepingEnabled] }

/-- Modelled from the spec: `DynamicsWorld::setSleepLinearVelocity`. -/
def DynamicsWorld.setSleepLinearVelocity (world : DynamicsWorld) (sleepLinearVelocity : ℚ) :
    DynamicsWorld :=
  { world with
    settings := { world.settings with sleepLinearVelocity := sleepLinearVelocity }
    calls := world.calls ++ [.setSleepLinearVelocity sleepLinearVelocity] }

/-- Modelled from the spec: `DynamicsWorld::setSleepAngularVelocity`. -/
def DynamicsWorld.setSleepAngularVelocity (world : DynamicsWorld) (sleepAngularVelocity : ℚ) :
    DynamicsWorld :=
  { world with
    settings := { world.settings with sleepAngularVelocity := sleepAngularVelocity }
    calls := world.calls ++ [.setSleepAngularVelocity sleepAngularVelocity] }

/-- Modelled from the spec: `DynamicsWorld::setNbIterationsPositionSolver`. -/
def DynamicsWorld.setNbIterationsPositionSolver (world : DynamicsWorld) (nbIterations : Nat) :
    DynamicsWorld :=
  { world with
    settings := { world.settings with nbPositionSolverIterations := nbIterations }
    calls := world.calls ++ [.setNbIterationsPositionSolver nbIterations] }

/-- Modelled from the spec: `DynamicsWorld::setNbIterationsVelocitySolver`. -/
def DynamicsWorld.setNbIterationsVelocitySolver (world : DynamicsWorld) (nbIterations : Nat) :
    DynamicsWorld :=
  { world with
    settings := { world.settings with nbVelocitySolverIterations := nbIterations }
    calls := world.calls ++ [.setNbIterationsVelocitySolver nbIterations] }

/-- Modelled from the spec: `DynamicsWorld::setTimeBeforeSleep`. -/
def DynamicsWorld.setTimeBeforeSleep (world : DynamicsWorld) (timeBeforeSleep : ℚ) :
    DynamicsWorld :=
  { world with
    settings := { world.settings with timeBeforeSleep := timeBeforeSleep }
    calls := world.calls ++ [.setTimeBeforeSleep timeBeforeSleep] }

/-- Modelled from the spec: `DynamicsWorld::update(timeStep)`, "a step function taking a
fixed delta-time": the step is recorded; it changes none of the parameters of the world,
and what it does to the motion of the bodies is left out. -/
def DynamicsWorld.update (world : DynamicsWorld) (timeStep : ℚ) : DynamicsWorld :=
  { world with calls := world.calls ++ [.update timeStep] }

/-- Modelled from the spec: `DynamicsWorld::createRigidBody(transform)`: a new dynamic body
under a handle that no body had before; the result is the world and the handle. -/
def DynamicsWorld.createRigidBody (world : DynamicsWorld) (transform : Transform) :
    DynamicsWorld × Nat :=
  ({ world with
      mRigidBodies := world.mRigidBodies ++
        [⟨world.mCurrentBodyID, .DYNAMIC, transform, none⟩]
      mCurrentBodyID := world.mCurrentBodyID + 1
      calls := world.calls ++ [.createRigidBody world.mCurrentBodyID] },
   world.mCurrentBodyID)

/-- Modelled from the spec: `DynamicsWorld::destroyRigidBody(body)`. -/
def DynamicsWorld.destroyRigidBody (world : DynamicsWorld) (id : Nat) : DynamicsWorld :=
  { world with
    mRigidBodies := world.mRigidBodies.filter (fun b => b.id != id)
    calls := world.calls ++ [.destroyRigidBody id] }

/-- Modelled from the spec: `body->setType(type)` on the body with the given handle. -/
def DynamicsWorld.setBodyType (world : DynamicsWorld) (id : Nat) (type : BodyType) :
    DynamicsWorld :=
  { world with
    mRigidBodies := world.mRigidBodies.map (fun b => if b.id = id then { b with type := type } else b) }

/-- Modelled from the spec: `body->getMaterial().setBounciness(value)` on the body with the
given handle. -/
def DynamicsWorld.setBounciness (world : DynamicsWorld) (id : Nat) (value : ℚ) :
    DynamicsWorld :=
  { world with
    mRigidBodies := world.mRigidBodies.map
      (fun b => if b.id = id then { b with bounciness := some value } else b) }

/-- Modelled from the spec: `body->setTransform(transform)` on the body with the given
handle. -/
def DynamicsWorld.setBodyTransform (world : DynamicsWorld) (id : Nat) (transform : Transform) :
    DynamicsWorld :=
  { world with
    mRigidBodies := world.mRigidBodies.map
      (fun b => if b.id = id then { b with transform := transform } else b) }

/-- An object of the scene (`Box`, `Sphere`, `Cone`, `Cylinder`, `Capsule`, `ConvexMesh` or
`Dumbbell`): its class, the position and the mass given to its constructor (a dumbbell gets
no mass), and the handle of its rigid body. -/
structure PhysicsObject where
  kind : ObjectKind
  position : Vector3
  mass : Option ℚ
  mRigidBody : Nat
deriving DecidableEq

/-- Modelled from the spec: the constructors of the object classes, which are not among the
sources: `new Box(size, position, mass, world, shader)` and the like create one rigid body
in the world, at the given position with the identity orientation. -/
def createObject (world : DynamicsWorld) (kind : ObjectKind) (position : Vector3)
    (mass : Option ℚ) : DynamicsWorld × PhysicsObject :=
  let r := world.createRigidBody ⟨position, Quaternion.identity⟩
  (r.1, ⟨kind, position, mass, r.2⟩)

/-- The body of the creation loops of the constructor, run for the indices `i` of the list:
compute the position, create the object, set the bounciness of its material to 0.2, and push
the object at the back of the list of the scene. -/
def createObjects (kind : ObjectKind) (mass : Option ℚ) (position : Nat → Vector3) :
    List Nat → DynamicsWorld → DynamicsWorld × List PhysicsObject
  | [], world => (world, [])
  | i :: rest, world =>
    let r := createObject world kind (position i) mass
    let world1 := r.1.setBounciness r.2.mRigidBody (2 / 10)
    let rs := createObjects kind mass position rest world1
    (rs.1, r.2 :: rs.2)

/-- The engine settings kept by the scene (`mEngineSettings`, declared in `Scene.h`): the
fields that `CollisionShapesScene.cpp` uses. -/
structure EngineSettings where
  timeStep : ℚ
  isGravityEnabled : Bool
  gravity : Vector3
  isSleepingEnabled : Bool
  sleepLinearVelocity : ℚ
  sleepAngularVelocity : ℚ
  nbPositionSolverIterations : Nat
  nbVelocitySolverIterations : Nat
  timeBeforeSleep : ℚ
deriving DecidableEq

/-- The members of a `CollisionShapesScene` that belong to the physics. -/
structure CollisionShapesScene where
  mDynamicsWorld : DynamicsWorld
  mDumbbells : List PhysicsObject
  mBoxes : List PhysicsObject
  mSpheres : List PhysicsObject
  mCones : List PhysicsObject
  mCylinders : List PhysicsObject
  mCapsules : List PhysicsObject
  mConvexMeshes : List PhysicsObject
  mFloor : PhysicsObject
  mEngineSettings : EngineSettings
deriving DecidableEq

/-- The value of the local variable `timeStep` of the constructor, `1.0f / 60.0f`. -/
def CollisionShapesScene.constructorTimeStep : ℚ := 1 / 60

/-- Constructor `CollisionShapesScene::CollisionShapesScene(name)`. `defaults` are the
parameters a new dynamics world starts with, `baseSettings` is `mEngineSettings` as the
constructor of the base class `Scene` leaves it. -/
def CollisionShapesScene.new (c : SceneConstants) (m : FloatMath) (defaults : WorldSettings)
    (baseSettings : EngineSettings) : CollisionShapesScene :=
  let gravity : Vector3 := ⟨0, -(981 / 100), 0⟩
  let _timeStep : ℚ := CollisionShapesScene.constructorTimeStep
  let world0 := (DynamicsWorld.new defaults gravity).setNbIterationsVelocitySolver 15
  let radius : ℚ := 3
  let dumbbells := createObjects .dumbbell none
    (fun i => ⟨radius * m.cos ((i : ℚ) * 30), 100 + (i : ℚ) * (c.DUMBBELL_HEIGHT + 3 / 10),
      radius * m.sin ((i : ℚ) * 30)⟩)
    (List.range c.NB_COMPOUND_SHAPES) world0
  let boxes := createObjects .box (some c.BOX_MASS)
    (fun i => ⟨radius * m.cos ((i : ℚ) * 30), 60 + (i : ℚ) * (c.BOX_SIZE.y + 8 / 10),
      radius * m.sin ((i : ℚ) * 30)⟩)
    (List.range c.NB_BOXES) dumbbells.1
  let spheres := createObjects .sphere (some c.BOX_MASS)
    (fun i => ⟨radius * m.cos ((i : ℚ) * 35), 50 + (i : ℚ) * (c.SPHERE_RADIUS + 8 / 10),
      radius * m.sin ((i : ℚ) * 35)⟩)
    (List.range c.NB_CUBES) boxes.1
  let cones := createObjects .cone (some c.CONE_MASS)
    (fun i => ⟨radius * m.cos ((i : ℚ) * 50), 35 + (i : ℚ) * (c.CONE_HEIGHT + 3 / 10),
      radius * m.sin ((i : ℚ) * 50)⟩)
    (List.range c.NB_CONES) spheres.1
  let cylinders := createObjects .cylinder (some c.CYLINDER_MASS)
    (fun i => ⟨radius * m.cos ((i : ℚ) * 35), 25 + (i : ℚ) * (c.CYLINDER_HEIGHT + 3 / 10),
      radius * m.sin ((i : ℚ) * 35)⟩)
    (List.range c.NB_CYLINDERS) cones.1
  let capsules := createObjects .capsule (some c.CAPSULE_MASS)
    (fun i => ⟨radius * m.cos ((i : ℚ) * 45), 15 + (i : ℚ) * (c.CAPSULE_HEIGHT + 3 / 10),
      radius * m.sin ((i : ℚ) * 45)⟩)
    (List.range c.NB_CAPSULES) cylinders.1
  let meshes := createObjects .convexMesh (some c.MESH_MASS)
    (fun i => ⟨radius * m.cos ((i : ℚ) * 30), 5 + (i : ℚ) * (c.CAPSULE_HEIGHT + 3 / 10),
      radius * m.sin ((i : ℚ) * 30)⟩)
    (List.range c.NB_MESHES) capsules.1
  let floor := createObject meshes.1 .box ⟨0, 0, 0⟩ (some c.FLOOR_MASS)
  let world1 := floor.1.setBodyType floor.2.mRigidBody .STATIC
  let world2 := world1.setBounciness floor.2.mRigidBody (2 / 10)
  { mDynamicsWorld := world2
    mDumbbells := dumbbells.2
    mBoxes := boxes.2
    mSpheres := spheres.2
    mCones := cones.2
    mCylinders := cylinders.2
    mCapsules := capsules.2
    mConvexMeshes := meshes.2
    mFloor := floor.2
    mEngineSettings :=
      { baseSettings with
        isGravityEnabled := world2.settings.isGravityEnabled
        gravity := ⟨world2.settings.gravity.x, world2.settings.gravity.y,
          world2.settings.gravity.z⟩
        isSleepingEnabled := world2.settings.isSleepingEnabled
        sleepLinearVelocity := world2.settings.sleepLinearVelocity
        sleepAngularVelocity := world2.settings.sleepAngularVelocity
        nbPositionSolverIterations := world2.settings.nbPositionSolverIterations
        nbVelocitySolverIterations := world2.settings.nbVelocitySolverIterations
        timeBeforeSleep := world2.settings.timeBeforeSleep } }

/-- What the destructor does, in order. -/
inductive SceneEvent where
  | destroyShader
  | destroyRigidBody (id : Nat)
  | deleteObject (id : Nat)
  | deleteWorld
deriving DecidableEq

/-- The body of the loops of the destructor over a list of objects: destroy the rigid body
of the object in the dynamics world, then delete the object. -/
def destroyObjects : List PhysicsObject → List SceneEvent
  | [] => []
  | o :: rest => .destroyRigidBody o.mRigidBody :: .deleteObject o.mRigidBody :: destroyObjects rest

/-- Destructor `CollisionShapesScene::~CollisionShapesScene()`, as the sequence of what it
does. -/
def CollisionShapesScene.destructor (scene : CollisionShapesScene) : List SceneEvent :=
  [.destroyShader] ++ destroyObjects scene.mBoxes ++ destroyObjects scene.mSpheres ++
    destroyObjects scene.mCones ++ destroyObjects scene.mCylinders ++
    destroyObjects scene.mCapsules ++ destroyObjects scene.mConvexMeshes ++
    destroyObjects scene.mDumbbells ++
    [.destroyRigidBody scene.mFloor.mRigidBody, .deleteObject scene.mFloor.mRigidBody,
      .deleteWorld]

/-- Method `CollisionShapesScene::updatePhysics()`. -/
def CollisionShapesScene.updatePhysics (scene : CollisionShapesScene) : CollisionShapesScene :=
  let world1 := scene.mDynamicsWorld.setIsGratityEnabled scene.mEngineSettings.isGravityEnabled
  let gravity : Vector3 := ⟨scene.mEngineSettings.gravity.x, scene.mEngineSettings.gravity.y,
    scene.mEngineSettings.gravity.z⟩
  let world2 := world1.setGravity gravity
  let world3 := world2.enableSleeping scene.mEngineSettings.isSleepingEnabled
  let world4 := world3.setSleepLinearVelocity scene.mEngineSettings.sleepLinearVelocity
  let world5 := world4.setSleepAngularVelocity scene.mEngineSettings.sleepAngularVelocity
  let world6 := world5.setNbIterationsPositionSolver
    scene.mEngineSettings.nbPositionSolverIterations
  let world7 := world6.setNbIterationsVelocitySolver
    scene.mEngineSettings.nbVelocitySolverIterations
  let world8 := world7.setTimeBeforeSleep scene.mEngineSettings.timeBeforeSleep
  { scene with mDynamicsWorld := world8.update scene.mEngineSettings.timeStep }

/-- A call `objects[index]->resetTransform(transform)` of `reset()`, on the list of the
objects of the given class. -/
structure ResetCall where
  kind : ObjectKind
  index : Nat
  transform : Transform
deriving DecidableEq

/-- Method `CollisionShapesScene::reset()`, as the sequence of its `resetTransform` calls. -/
def CollisionShapesScene.reset (c : SceneConstants) (m : FloatMath) : List ResetCall :=
  let radius : ℚ := 3
  (List.range c.NB_COMPOUND_SHAPES).map (fun i =>
    ⟨.dumbbell, i, ⟨⟨radius * m.cos ((i : ℚ) * 30),
      100 + (i : ℚ) * (c.DUMBBELL_HEIGHT + 3 / 10),
      radius * m.sin ((i : ℚ) * 30)⟩, Quaternion.identity⟩⟩) ++
  (List.range c.NB_BOXES).map (fun i =>
    ⟨.box, i, ⟨⟨radius * m.cos ((i : ℚ) * 30),
      60 + (i : ℚ) * (c.BOX_SIZE.y + 8 / 10),
      radius * m.sin ((i : ℚ) * 30)⟩, Quaternion.identity⟩⟩) ++
  (List.range c.NB_CUBES).map (fun i =>
    ⟨.sphere, i, ⟨⟨radius * m.cos ((i : ℚ) * 35),
      50 + (i : ℚ) * (c.SPHERE_RADIUS + 8 / 10),
      radius * m.sin ((i : ℚ) * 35)⟩, Quaternion.identity⟩⟩) ++
  (List.range c.NB_CONES).map (fun i =>
    ⟨.cone, i, ⟨⟨radius * m.cos ((i : ℚ) * 50),
      35 + (i : ℚ) * (c.CONE_HEIGHT + 3 / 10),
      radius * m.sin ((i : ℚ) * 50)⟩, Quaternion.identity⟩⟩) ++
  (List.range c.NB_CYLINDERS).map (fun i =>
    ⟨.cylinder, i, ⟨⟨radius * m.cos ((i : ℚ) * 35),
      25 + (i : ℚ) * (c.CYLINDER_HEIGHT + 3 / 10),
      radius * m.sin ((i : ℚ) * 35)⟩, Quaternion.identity⟩⟩) ++
  (List.range c.NB_CAPSULES).map (fun i =>
    ⟨.capsule, i, ⟨⟨radius * m.cos ((i : ℚ) * 45),
      15 + (i : ℚ) * (c.CAPSULE_HEIGHT + 3 / 10),
      radius * m.sin ((i : ℚ) * 45)⟩, Quaternion.identity⟩⟩) ++
  (List.range c.NB_MESHES).map (fun i =>
    ⟨.convexMesh, i, ⟨⟨radius * m.cos ((i : ℚ) * 30),
      5 + (i : ℚ) * (c.CAPSULE_HEIGHT + 3 / 10),
      radius * m.sin ((i : ℚ) * 30)⟩, Quaternion.identity⟩⟩)

/-- The list of the scene that holds the objects of a class. -/
def CollisionShapesScene.objects (scene : CollisionShapesScene) : ObjectKind → List PhysicsObject
  | .dumbbell => scene.mDumbbells
  | .box => scene.mBoxes
  | .sphere => scene.mSpheres
  | .cone => scene.mCones
  | .cylinder => scene.mCylinders
  | .capsule => scene.mCapsules
  | .convexMesh => scene.mConvexMeshes

/-- The bound of the loop that creates, and of the loop that resets, the objects of a
class. -/
def SceneConstants.count (c : SceneConstants) : ObjectKind → Nat
  | .dumbbell => c.NB_COMPOUND_SHAPES
  | .box => c.NB_BOXES
  | .sphere => c.NB_CUBES
  | .cone => c.NB_CONES
  | .cylinder => c.NB_CYLINDERS
  | .capsule => c.NB_CAPSULES
  | .convexMesh => c.NB_MESHES

/-- The engine settings of the scene and the parameters of its world agree on the eight
parameters that the scene reads and writes. -/
def CollisionShapesScene.SettingsAgree (scene : CollisionShapesScene) : Prop :=
  scene.mEngineSettings.isGravityEnabled = scene.mDynamicsWorld.settings.isGravityEnabled ∧
  scene.mEngineSettings.gravity = scene.mDynamicsWorld.settings.gravity ∧
  scene.mEngineSettings.isSleepingEnabled = scene.mDynamicsWorld.settings.isSleepingEnabled ∧
  scene.mEngineSettings.sleepLinearVelocity = scene.mDynamicsWorld.settings.sleepLinearVelocity ∧
  scene.mEngineSettings.sleepAngularVelocity =
    scene.mDynamicsWorld.settings.sleepAngularVelocity ∧
  scene.mEngineSettings.nbPositionSolverIterations =
    scene.mDynamicsWorld.settings.nbPositionSolverIterations ∧
  scene.mEngineSettings.nbVelocitySolverIterations =
    scene.mDynamicsWorld.settings.nbVelocitySolverIterations ∧
  scene.mEngineSettings.timeBeforeSleep = scene.mDynamicsWorld.settings.timeBeforeSleep

/-- The handles of the rigid bodies that the destructor destroys, in the order of the
calls. -/
def CollisionShapesScene.destroyedBodies (scene : CollisionShapesScene) : List Nat :=
  (scene.mBoxes ++ scene.mSpheres ++ scene.mCones ++ scene.mCylinders ++ scene.mCapsules ++
    scene.mConvexMeshes ++ scene.mDumbbells).map (fun o => o.mRigidBody) ++
    [scene.mFloor.mRigidBody]

/-- Values for the constants of the scene, for running it on an example. -/
def exampleSceneConstants : SceneConstants where
  NB_BOXES := 2
  NB_CUBES := 1
  NB_CONES := 3
  NB_CYLINDERS := 2
  NB_CAPSULES := 1
  NB_MESHES := 2
  NB_COMPOUND_SHAPES := 2
  BOX_SIZE := ⟨2, 2, 2⟩
  SPHERE_RADIUS := 3 / 2
  CONE_RADIUS := 2
  CONE_HEIGHT := 3
  CYLINDER_RADIUS := 1
  CYLINDER_HEIGHT := 5
  CAPSULE_RADIUS := 1
  CAPSULE_HEIGHT := 1
  DUMBBELL_HEIGHT := 1
  FLOOR_SIZE := ⟨50, 1 / 2, 50⟩
  BOX_MASS := 1
  CONE_MASS := 1
  CYLINDER_MASS := 1
  CAPSULE_MASS := 1
  MESH_MASS := 1
  FLOOR_MASS := 100

/-- Stand-ins for `cos` and `sin`, for running the scene on an example. -/
def exampleFloatMath : FloatMath := ⟨fun _ => 1, fun _ => 0⟩

/-- Parameters for a new world, for running the scene on an example. -/
def exampleWorldSettings : WorldSettings := ⟨true, ⟨0, 0, 0⟩, true, 1 / 50, 3 / 180, 5, 10, 1⟩

/-- Engine settings left by the base class with a time step of 1/30 second. -/
def exampleEngineSettings : EngineSettings :=
  ⟨1 / 30, false, ⟨0, 0, 0⟩, false, 0, 0, 0, 0, 0⟩

/-- The number of objects that the creation loops of the constructor create. -/
def SceneConstants.nbObjects (c : SceneConstants) : Nat :=
  c.NB_COMPOUND_SHAPES + c.NB_BOXES + c.NB_CUBES + c.NB_CONES + c.NB_CYLINDERS +
    c.NB_CAPSULES + c.NB_MESHES

/-! ## Theorems -/

theorem Double.magnitude_nonneg (d : Double) : 0 ≤ d.magnitude := by
  unfold Double.magnitude
  split <;> positivity

theorem Double.toValue_zero : Double.zero.toValue = .finite 0 := by
  simp [Double.toValue, Double.zero, Double.magnitude]

theorem Double.magnitude_eq_zero_iff (d : Double) :
    d.magnitude = 0 ↔ d.expo.val = 0 ∧ d.frac.val = 0 := by
  unfold Double.magnitude
  split
  · rename_i h
    simp [h]
  · rename_i h
    constructor
    · intro h0
      have hpos : (0 : ℚ) < ((4503599627370496 + d.frac.val : ℕ) : ℚ) * 2 ^ d.expo.val / 2 ^ 1075 := by
        have : (0 : ℚ) < ((4503599627370496 + d.frac.val : ℕ) : ℚ) := by
          exact_mod_cast Nat.lt_of_lt_of_le (by norm_num) (Nat.le_add_right _ _)
        positivity
      exact absurd h0 (ne_of_gt hpos)
    · rintro ⟨h0, -⟩
      exact absurd h0 h

/-- Bit-level reading of `value >= 0`: the datum is not a NaN, and its sign bit is clear or
it is a zero. -/
theorem Double.ge_zero_iff (d : Double) :
    d.ge Double.zero = true ↔
      (d.expo.val = 2047 → d.frac.val = 0) ∧
        (d.sign = false ∨ (d.expo.val = 0 ∧ d.frac.val = 0)) := by
  have hm := d.magnitude_nonneg
  have hz := d.magnitude_eq_zero_iff
  unfold Double.ge
  rw [Double.toValue_zero]
  unfold Double.toValue
  by_cases he : d.expo.val = 2047
  · by_cases hf : d.frac.val = 0
    · cases hs : d.sign <;> simp [he, hf, hs, DoubleValue.ge]
    · simp [he, hf, DoubleValue.ge]
  · cases hs : d.sign
    · simp [he, hs, DoubleValue.ge, hm]
    · simp only [he, hs, DoubleValue.ge, if_true, if_false, decide_eq_true_eq]
      constructor
      · intro h
        have : d.magnitude = 0 := le_antisymm (by linarith) hm
        exact ⟨fun h2 => h2.elim, Or.inr (hz.mp this)⟩
      · rintro ⟨-, h | h⟩
        · exact absurd h (by simp)
        · rw [hz.mpr h]; simp

/-- Bit-level reading of `value > 0`. -/
theorem Double.gt_zero_iff (d : Double) :
    d.gt Double.zero = true ↔
      (d.expo.val = 2047 → d.frac.val = 0) ∧ d.sign = false ∧
        ¬ (d.expo.val = 0 ∧ d.frac.val = 0) := by
  have hm := d.magnitude_nonneg
  have hz := d.magnitude_eq_zero_iff
  unfold Double.gt
  rw [Double.toValue_zero]
  unfold Double.toValue
  by_cases he : d.expo.val = 2047
  · by_cases hf : d.frac.val = 0
    · cases hs : d.sign <;> simp [he, hf, hs, DoubleValue.lt]
    · simp [he, hf, DoubleValue.lt]
  · cases hs : d.sign
    · simp only [he, hs, DoubleValue.lt, if_false, decide_eq_true_eq, Bool.false_eq_true, reduceIte]
      rw [← hz]
      constructor
      · intro h
        exact ⟨fun h2 => h2.elim, trivial, ne_of_gt h⟩
      · rintro ⟨-, -, h⟩
        exact lt_of_le_of_ne hm (Ne.symm h)
    · simp only [he, hs, DoubleValue.lt, if_true, if_false, decide_eq_true_eq]
      constructor
      · intro h
        linarith
      · rintro ⟨-, h, -⟩
        exact absurd h (by simp)

/-- Bit-level reading of `value < 0`. -/
theorem Double.lt_zero_iff (d : Double) :
    d.lt Double.zero = true ↔
      (d.expo.val = 2047 → d.frac.val = 0) ∧ d.sign = true ∧
        ¬ (d.expo.val = 0 ∧ d.frac.val = 0) := by
  have hm := d.magnitude_nonneg
  have hz := d.magnitude_eq_zero_iff
  unfold Double.lt
  rw [Double.toValue_zero]
  unfold Double.toValue
  by_cases he : d.expo.val = 2047
  · by_cases hf : d.frac.val = 0
    · cases hs : d.sign <;> simp [he, hf, hs, DoubleValue.lt]
    · simp [he, hf, DoubleValue.lt]
  · cases hs : d.sign
    · simp only [he, hs, DoubleValue.lt, if_false, decide_eq_true_eq, Bool.false_eq_true, reduceIte]
      constructor
      · intro h
        linarith
      · rintro ⟨-, h, -⟩
        exact absurd h (by simp)
    · simp only [he, hs, DoubleValue.lt, if_true, if_false, decide_eq_true_eq]
      rw [← hz]
      constructor
      · intro h
        refine ⟨fun h2 => h2.elim, trivial, ?_⟩
        intro h0
        rw [h0] at h
        simp at h
      · rintro ⟨-, -, h⟩
        have : 0 < d.magnitude := lt_of_le_of_ne hm (Ne.symm h)
        linarith

/-! ### Body types -/

/-- C1: a pair of bodies is eligible to collide exactly when at least one of the two is
DYNAMIC, and the filter before the narrow phase keeps exactly the candidate pairs with a
DYNAMIC body; so STATIC-STATIC, STATIC-KINEMATIC, KINEMATIC-STATIC and KINEMATIC-KINEMATIC
pairs are dropped and a DYNAMIC body passes with any partner. -/
theorem pairEligible_iff_dynamic :
    (∀ a b : BodyType, pairEligible a b = true ↔ (a = .DYNAMIC ∨ b = .DYNAMIC)) ∧
    (∀ (pairs : List (CollisionBody × CollisionBody)) (p : CollisionBody × CollisionBody),
      p ∈ narrowPhaseInput pairs ↔
        p ∈ pairs ∧ (p.1.mType = .DYNAMIC ∨ p.2.mType = .DYNAMIC)) := by
  have h : ∀ a b : BodyType, pairEligible a b = true ↔ (a = .DYNAMIC ∨ b = .DYNAMIC) := by
    intro a b
    cases a <;> cases b <;> simp [pairEligible, BodyType.doesNotCollideWith]
  refine ⟨h, ?_⟩
  intro pairs p
  simp only [narrowPhaseInput, List.mem_filter, CollisionBody.getType, h]

/-! ### Kilogram -/

theorem Kilogram.new_of_ge {value : Double} (h : value.ge Double.zero = true) :
    Kilogram.new value = .ok ⟨value⟩ := by
  simp [Kilogram.new, h]

theorem Kilogram.new_of_not_ge {value : Double} (h : value.ge Double.zero = false) :
    Kilogram.new value = .error (.invalid_argument
      "Exception in Kilogram : Wrong argument, a mass value has to be positive") := by
  simp [Kilogram.new, h]

theorem Double.lt_zero_not_ge {value : Double} (h : value.lt Double.zero = true) :
    value.ge Double.zero = false := by
  rw [Double.lt_zero_iff] at h
  rw [Bool.eq_false_iff]
  intro hge
  rw [Double.ge_zero_iff] at hge
  rcases hge with ⟨-, hs | hz⟩
  · rw [hs] at h
    exact absurd h.2.1 (by simp)
  · exact h.2.2 hz

theorem Kilogram.new_ok_iff_ge (value : Double) :
    (∃ k, Kilogram.new value = .ok k) ↔ value.ge Double.zero = true := by
  constructor
  · rintro ⟨k, hk⟩
    by_contra hn
    rw [Bool.not_eq_true] at hn
    rw [Kilogram.new_of_not_ge hn] at hk
    cases hk
  · intro h
    exact ⟨_, Kilogram.new_of_ge h⟩

/-- C2: `Kilogram(value)` yields an object exactly when `value >= 0` holds and throws
`std::invalid_argument` (no object) whenever it does not; `Kilogram(0)` succeeds and every
value below zero is rejected. -/
theorem Kilogram.new_succeeds_iff_ge_zero :
    (∀ value : Double, (∃ k, Kilogram.new value = .ok k) ↔ value.ge Double.zero = true) ∧
    (∀ value : Double, value.ge Double.zero = false ↔
      Kilogram.new value = .error (.invalid_argument
        "Exception in Kilogram : Wrong argument, a mass value has to be positive")) ∧
    (∃ k, Kilogram.new Double.zero = .ok k) ∧
    (∀ value : Double, value.lt Double.zero = true →
      ∃ e, Kilogram.new value = .error (.invalid_argument e)) := by
  refine ⟨?_, ?_, ?_, ?_⟩
  · intro value
    constructor
    · rintro ⟨k, hk⟩
      by_contra hn
      rw [Bool.not_eq_true] at hn
      rw [Kilogram.new_of_not_ge hn] at hk
      cases hk
    · intro h
      exact ⟨_, Kilogram.new_of_ge h⟩
  · intro value
    constructor
    · exact Kilogram.new_of_not_ge
    · intro h
      by_contra hn
      rw [Bool.not_eq_false] at hn
      rw [Kilogram.new_of_ge hn] at h
      cases h
  · exact ⟨_, Kilogram.new_of_ge (by rw [Double.ge_zero_iff]; decide)⟩
  · intro value h
    exact ⟨_, Kilogram.new_of_not_ge (Double.lt_zero_not_ge h)⟩

/-- Witness for C2: `Kilogram(-1.0)` throws. -/
theorem Kilogram.new_succeeds_iff_ge_zero_witness :
    Double.negOne.lt Double.zero = true ∧
      ∃ e, Kilogram.new Double.negOne = .error (.invalid_argument e) :=
  ⟨by rw [Double.lt_zero_iff]; decide,
   Kilogram.new_succeeds_iff_ge_zero.2.2.2 Double.negOne (by rw [Double.lt_zero_iff]; decide)⟩

/-- C3, as stated, fails: `Kilogram(0.0)` is accepted although `0.0 > 0` is false. -/
theorem Kilogram.new_zero_accepted_not_positive :
    Kilogram.new Double.zero = .ok ⟨Double.zero⟩ ∧ Double.zero.gt Double.zero = false := by
  constructor
  · exact Kilogram.new_of_ge (by rw [Double.ge_zero_iff]; decide)
  · rw [Bool.eq_false_iff, Ne, Double.gt_zero_iff]
    decide

/-- C3, amended: `Kilogram(value)` accepts its argument exactly when the value is positive
or is a zero (`value > 0` or `value == 0`), and throws `std::invalid_argument` for every
other value. -/
theorem Kilogram.new_accepts_iff_positive_or_zero (value : Double) :
    ((∃ k, Kilogram.new value = .ok k) ↔
      (value.gt Double.zero = true ∨ value.toValue = .finite 0)) ∧
    (¬ (value.gt Double.zero = true ∨ value.toValue = .finite 0) ↔
      Kilogram.new value = .error (.invalid_argument
        "Exception in Kilogram : Wrong argument, a mass value has to be positive")) := by
  have key : value.ge Double.zero = true ↔
      (value.gt Double.zero = true ∨ value.toValue = .finite 0) := by
    have hz := value.magnitude_eq_zero_iff
    have hv : value.toValue = .finite 0 ↔ (value.expo.val = 0 ∧ value.frac.val = 0) := by
      unfold Double.toValue
      by_cases he : value.expo.val = 2047
      · have : ¬ (value.expo.val = 0) := by omega
        by_cases hf : value.frac.val = 0 <;> cases hs : value.sign <;> simp [he, hf, this]
      · cases hs : value.sign <;> simp [he, hz]
    rw [Double.ge_zero_iff, Double.gt_zero_iff, hv]
    constructor
    · rintro ⟨h1, h2⟩
      by_cases hzero : value.expo.val = 0 ∧ value.frac.val = 0
      · exact Or.inr hzero
      · rcases h2 with h2 | h2
        · exact Or.inl ⟨h1, h2, hzero⟩
        · exact absurd h2 hzero
    · rintro (⟨h1, h2, -⟩ | h)
      · exact ⟨h1, Or.inl h2⟩
      · refine ⟨fun h2 => ?_, Or.inr h⟩
        rw [h.1] at h2
        exact absurd h2 (by norm_num)
  rw [← key]
  constructor
  · exact Kilogram.new_ok_iff_ge value
  · rw [Bool.not_eq_true]
    constructor
    · exact Kilogram.new_of_not_ge
    · intro h
      by_contra hn
      rw [Bool.not_eq_false] at hn
      rw [Kilogram.new_of_ge hn] at h
      cases h

/-- C4: when `Kilogram(value)` succeeds the object stores exactly `value`, and the copy of a
`Kilogram` stores exactly the value of the original. -/
theorem Kilogram.new_stores_argument (value : Double) (k : Kilogram)
    (h : Kilogram.new value = .ok k) :
    k.value = value ∧ ∀ m : Kilogram, (Kilogram.newCopy m).value = m.value := by
  refine ⟨?_, fun m => rfl⟩
  unfold Kilogram.new at h
  split at h
  · cases h
    rfl
  · cases h

/-- Witness for C4: `Kilogram(1.0)` stores `1.0`. -/
theorem Kilogram.new_stores_argument_witness :
    Kilogram.new Double.one = .ok ⟨Double.one⟩ ∧ (⟨Double.one⟩ : Kilogram).value = Double.one :=
  ⟨Kilogram.new_of_ge (by rw [Double.ge_zero_iff]; decide),
   (Kilogram.new_stores_argument Double.one ⟨Double.one⟩
      (Kilogram.new_of_ge (by rw [Double.ge_zero_iff]; decide))).1⟩

/-! ### Collision bodies -/

/-- C5: `testAABBOverlap(w)` returns exactly `w.testCollision(getAABB())`, where `getAABB()`
merges the boxes of all proxy shapes of the body, and leaves the body as it was. -/
theorem CollisionBody.testAABBOverlap_eq (body : CollisionBody) (w : AABB) :
    ((body.testAABBOverlap w).1 = true ↔ w.testCollision body.getAABB = true) ∧
    (body.testAABBOverlap w).1 = w.testCollision body.getAABB ∧
    (body.testAABBOverlap w).2 = body :=
  ⟨Iff.rfl, rfl, rfl⟩

/-! ### Broad phase -/

theorem largestAreaSubset_mem (best : List ContactPoint) (subsets : List (List ContactPoint)) :
    largestAreaSubset best subsets = best ∨ largestAreaSubset best subsets ∈ subsets := by
  induction subsets generalizing best with
  | nil => exact Or.inl rfl
  | cons s rest ih =>
    simp only [largestAreaSubset, List.mem_cons]
    rcases ih (if polygonAreaMeasure best < polygonAreaMeasure s then s else best) with h | h
    · rw [h]
      split_ifs
      · exact Or.inr (Or.inl rfl)
      · exact Or.inl rfl
    · exact Or.inr (Or.inr h)

theorem reduceContactPoints_length_le (points : List ContactPoint) :
    (reduceContactPoints points).length ≤ 4 := by
  unfold reduceContactPoints
  split_ifs with h
  · rcases largestAreaSubset_mem (points.take MAX_CONTACT_POINTS_IN_MANIFOLD)
      (List.sublistsLen MAX_CONTACT_POINTS_IN_MANIFOLD points) with h1 | h1
    · rw [h1, List.length_take]
      exact Nat.min_le_left _ _
    · exact le_of_eq (List.length_of_sublistsLen h1)
  · simpa [MAX_CONTACT_POINTS_IN_MANIFOLD] using h

theorem ContactManifold.update_length_le (manifold : ContactManifold) (toleranceSquare : ℚ)
    (info : NarrowPhaseInfo) : (manifold.update toleranceSquare info).points.length ≤ 4 :=
  reduceContactPoints_length_le _

/-- C7: after every creation or update, whatever the number of candidate points of the
narrow phase, a manifold holds at most 4 contact points; so does every manifold after a
step of the manifold manager. -/
theorem ContactManifold.points_length_le_four :
    (∀ (toleranceSquare : ℚ) (info : NarrowPhaseInfo),
      (ContactManifold.create toleranceSquare info).points.length ≤ 4) ∧
    (∀ (manifold : ContactManifold) (toleranceSquare : ℚ) (info : NarrowPhaseInfo),
      (manifold.update toleranceSquare info).points.length ≤ 4) ∧
    (∀ (manifolds : List ContactManifold) (toleranceSquare : ℚ)
      (narrowPhase : List NarrowPhaseInfo),
      ∀ m ∈ updateContactManifolds manifolds toleranceSquare narrowPhase,
        m.points.length ≤ 4) := by
  refine ⟨fun t info => ContactManifold.update_length_le _ t info,
    ContactManifold.update_length_le, ?_⟩
  intro manifolds t narrowPhase m hm
  simp only [updateContactManifolds, List.mem_map] at hm
  obtain ⟨info, -, rfl⟩ := hm
  split
  · exact ContactManifold.update_length_le _ t info
  · exact ContactManifold.update_length_le _ t info

/-! ### Velocity iterations -/

theorem solveContact_normalImpulse_nonneg {V : Type} (rule : ImpulseRule V) (v : V)
    (c : ContactPointSolver) : 0 ≤ (solveContact rule v c).2.normalImpulse := by
  simp only [solveContact]
  exact le_max_right _ _

theorem solveContact_frictionCoefficient {V : Type} (rule : ImpulseRule V) (v : V)
    (c : ContactPointSolver) :
    (solveContact rule v c).2.frictionCoefficient = c.frictionCoefficient := rfl

theorem abs_clamp_le (x limit : ℚ) (h : 0 ≤ limit) : |clamp x (-limit) limit| ≤ limit := by
  unfold clamp
  rw [abs_le]
  constructor
  · exact le_max_left _ _
  · exact max_le (by linarith) (min_le_right _ _)

theorem solveContact_friction_le {V : Type} (rule : ImpulseRule V) (v : V)
    (c : ContactPointSolver) (h : 0 ≤ c.frictionCoefficient) :
    |(solveContact rule v c).2.friction1Impulse| ≤
        (solveContact rule v c).2.frictionCoefficient * (solveContact rule v c).2.normalImpulse ∧
      |(solveContact rule v c).2.friction2Impulse| ≤
        (solveContact rule v c).2.frictionCoefficient * (solveContact rule v c).2.normalImpulse := by
  have hn : 0 ≤ max (c.normalImpulse + rule.deltaNormal v c) 0 := le_max_right _ _
  have hl : 0 ≤ c.frictionCoefficient * max (c.normalImpulse + rule.deltaNormal v c) 0 :=
    mul_nonneg h hn
  simp only [solveContact]
  exact ⟨abs_clamp_le _ _ hl, abs_clamp_le _ _ hl⟩

theorem solveVelocityIteration_forall {V : Type} (rule : ImpulseRule V)
    (P Q : ContactPointSolver → Prop)
    (hstep : ∀ v c, P c → Q (solveContact rule v c).2) (v : V)
    (cs : List ContactPointSolver) (h : ∀ c ∈ cs, P c) :
    ∀ c ∈ (solveVelocityIteration rule v cs).2, Q c := by
  induction cs generalizing v with
  | nil =>
    intro c hc
    simp [solveVelocityIteration] at hc
  | cons c0 cs ih =>
    intro c hc
    simp only [solveVelocityIteration, List.mem_cons] at hc
    rcases hc with rfl | hc
    · exact hstep v c0 (h c0 (List.mem_cons_self _ _))
    · exact ih _ (fun c' hc' => h c' (List.mem_cons_of_mem _ hc')) c hc

theorem solveVelocity_frictionCoefficient_nonneg {V : Type} (rule : ImpulseRule V) (n : Nat)
    (v : V) (cs : List ContactPointSolver) (h : ∀ c ∈ cs, 0 ≤ c.frictionCoefficient) :
    ∀ c ∈ (solveVelocity rule n v cs).2, 0 ≤ c.frictionCoefficient := by
  induction n with
  | zero => exact h
  | succ n ih =>
    exact solveVelocityIteration_forall rule (fun c => 0 ≤ c.frictionCoefficient)
      (fun c => 0 ≤ c.frictionCoefficient)
      (fun v c hc => by
        show 0 ≤ (solveContact rule v c).2.frictionCoefficient
        rw [solveContact_frictionCoefficient]
        exact hc) _ _ ih

theorem solveVelocity_length {V : Type} (rule : ImpulseRule V) (n : Nat) (v : V)
    (cs : List ContactPointSolver) : (solveVelocity rule n v cs).2.length = cs.length := by
  have hit : ∀ (v : V) (cs : List ContactPointSolver),
      (solveVelocityIteration rule v cs).2.length = cs.length := by
    intro v cs
    induction cs generalizing v with
    | nil => rfl
    | cons c cs ih => simp [solveVelocityIteration, ih]
  induction n with
  | zero => rfl
  | succ n ih => simp only [solveVelocity, hit, ih]

/-- C8: after every velocity-solver iteration (the state after `n + 1` iterations, for every
`n`), the accumulated normal impulse of every contact point is greater than or equal to 0,
whatever the impulse formulas, the velocities and the impulses the solve started from; and
no contact is lost on the way. -/
theorem solveVelocity_normalImpulse_nonneg {V : Type} (rule : ImpulseRule V) (n : Nat) (v : V)
    (cs : List ContactPointSolver) :
    (solveVelocity rule (n + 1) v cs).2.length = cs.length ∧
      ∀ c ∈ (solveVelocity rule (n + 1) v cs).2, 0 ≤ c.normalImpulse :=
  ⟨solveVelocity_length rule (n + 1) v cs,
   solveVelocityIteration_forall rule (fun _ => True) (fun c => 0 ≤ c.normalImpulse)
    (fun v c _ => solveContact_normalImpulse_nonneg rule v c) _ _ (fun _ _ => trivial)⟩

/-- C9: after every velocity-solver iteration, for every contact whose friction coefficient
is not negative, each accumulated friction impulse (one per tangent direction of the box
model) has a magnitude of at most the friction coefficient times the accumulated normal
impulse of that contact. -/
theorem solveVelocity_friction_le {V : Type} (rule : ImpulseRule V) (n : Nat) (v : V)
    (cs : List ContactPointSolver) (hmu : ∀ c ∈ cs, 0 ≤ c.frictionCoefficient) :
    ∀ c ∈ (solveVelocity rule (n + 1) v cs).2,
      |c.friction1Impulse| ≤ c.frictionCoefficient * c.normalImpulse ∧
        |c.friction2Impulse| ≤ c.frictionCoefficient * c.normalImpulse :=
  solveVelocityIteration_forall rule (fun c => 0 ≤ c.frictionCoefficient)
    (fun c => |c.friction1Impulse| ≤ c.frictionCoefficient * c.normalImpulse ∧
      |c.friction2Impulse| ≤ c.frictionCoefficient * c.normalImpulse)
    (fun v c hc => solveContact_friction_le rule v c hc) _ _
    (solveVelocity_frictionCoefficient_nonneg rule n v cs hmu)

/-- Witness for C9: two iterations on one contact with friction coefficient 1/2 end with
the impulses 1, 1/2 and -1/2. -/
theorem solveVelocity_friction_le_witness :
    exampleContactSolved ∈ (solveVelocity exampleImpulseRule (1 + 1) 0 [exampleContact]).2 ∧
      (|exampleContactSolved.friction1Impulse| ≤
          exampleContactSolved.frictionCoefficient * exampleContactSolved.normalImpulse ∧
        |exampleContactSolved.friction2Impulse| ≤
          exampleContactSolved.frictionCoefficient * exampleContactSolved.normalImpulse) :=
  have hmem : exampleContactSolved ∈
      (solveVelocity exampleImpulseRule (1 + 1) 0 [exampleContact]).2 := by
    simp [solveVelocity, solveVelocityIteration, solveContact, clamp, exampleImpulseRule,
      exampleContact, exampleContactSolved]
    norm_num
  ⟨hmem, solveVelocity_friction_le exampleImpulseRule 1 0 [exampleContact]
    (by simp [exampleContact]) exampleContactSolved hmem⟩

/-! ### Island builder -/

theorem adjacent_symm {bodies : List CollisionBody} {edges : List (Nat × Nat)} {a b : Nat}
    (h : Adjacent bodies edges a b) : Adjacent bodies edges b a :=
  ⟨h.2.1, h.1, h.2.2.symm⟩

theorem connected_symm {bodies : List CollisionBody} {edges : List (Nat × Nat)} {a b : Nat}
    (h : Connected bodies edges a b) : Connected bodies edges b a :=
  Relation.ReflTransGen.symmetric (fun _ _ h => adjacent_symm h) h

theorem connected_mono {bodies : List CollisionBody} {edges edges' : List (Nat × Nat)}
    (hsub : ∀ e ∈ edges, e ∈ edges') {a b : Nat} (h : Connected bodies edges a b) :
    Connected bodies edges' a b := by
  refine Relation.ReflTransGen.mono ?_ h
  rintro x y ⟨hx, hy, hxy | hxy⟩
  · exact ⟨hx, hy, Or.inl (hsub _ hxy)⟩
  · exact ⟨hx, hy, Or.inr (hsub _ hxy)⟩

theorem labelsAgree_nil (bodies : List CollisionBody) :
    LabelsAgree bodies [] (fun i => i) := by
  intro i j
  constructor
  · intro h
    have h' : i = j := h
    subst h'
    exact Relation.ReflTransGen.refl
  · intro h
    induction h with
    | refl => rfl
    | tail _ hab _ =>
      rcases hab.2.2 with h | h <;> simp at h

theorem linkConstraint_labelsAgree (bodies : List CollisionBody) (done : List (Nat × Nat))
    (label : Nat → Nat) (e : Nat × Nat) (h : LabelsAgree bodies done label) :
    LabelsAgree bodies (done ++ [e]) (linkConstraint bodies label e) := by
  have hmono : ∀ {a b : Nat}, Connected bodies done a b → Connected bodies (done ++ [e]) a b :=
    fun hc => connected_mono (fun x hx => List.mem_append_left _ hx) hc
  by_cases hm : (islandMember bodies e.1 && islandMember bodies e.2) = true
  · have hm' := hm
    rw [Bool.and_eq_true] at hm'
    have hedge : Adjacent bodies (done ++ [e]) e.1 e.2 :=
      ⟨hm'.1, hm'.2, Or.inl (List.mem_append_right _ (List.mem_singleton_self _))⟩
    have hlab : linkConstraint bodies label e = unionBodies label e.1 e.2 := by
      simp [linkConstraint, hm]
    rw [hlab]
    have hu1 : unionBodies label e.1 e.2 e.1 = label e.2 := by simp [unionBodies]
    have hu2 : unionBodies label e.1 e.2 e.2 = label e.2 := by simp [unionBodies]
    have hcongr : ∀ x y, label x = label y →
        unionBodies label e.1 e.2 x = unionBodies label e.1 e.2 y := by
      intro x y hxy
      simp [unionBodies, hxy]
    intro i j
    constructor
    · intro hij
      simp only [unionBodies] at hij
      split_ifs at hij with hi hj hj
      · exact hmono ((h i j).mp (hi.trans hj.symm))
      · have h1 := hmono ((h i e.1).mp hi)
        have h2 := hmono ((h e.2 j).mp hij)
        exact h1.trans ((Relation.ReflTransGen.single hedge).trans h2)
      · have h1 := hmono ((h i e.2).mp hij)
        have h2 := hmono ((h e.1 j).mp hj.symm)
        exact h1.trans ((Relation.ReflTransGen.single (adjacent_symm hedge)).trans h2)
      · exact hmono ((h i j).mp hij)
    · intro hc
      induction hc with
      | refl => rfl
      | @tail k j' _ hab ih =>
        refine ih.trans ?_
        obtain ⟨hk, hj', hkj | hkj⟩ := hab
        · rcases List.mem_append.mp hkj with hd | hd
          · exact hcongr _ _ ((h k j').mpr (Relation.ReflTransGen.single ⟨hk, hj', Or.inl hd⟩))
          · have he : (k, j') = e := List.mem_singleton.mp hd
            subst he
            exact hu1.trans hu2.symm
        · rcases List.mem_append.mp hkj with hd | hd
          · exact hcongr _ _ ((h k j').mpr (Relation.ReflTransGen.single ⟨hk, hj', Or.inr hd⟩))
          · have he : (j', k) = e := List.mem_singleton.mp hd
            subst he
            exact hu2.trans hu1.symm
  · have hlab : linkConstraint bodies label e = label := by
      simp [linkConstraint, hm]
    rw [hlab]
    have hadj : Adjacent bodies (done ++ [e]) = Adjacent bodies done := by
      funext a b
      apply propext
      constructor
      · rintro ⟨ha, hb, hab | hab⟩
        · rcases List.mem_append.mp hab with hd | hd
          · exact ⟨ha, hb, Or.inl hd⟩
          · have he : (a, b) = e := List.mem_singleton.mp hd
            subst he
            exact absurd (by simp [ha, hb]) hm
        · rcases List.mem_append.mp hab with hd | hd
          · exact ⟨ha, hb, Or.inr hd⟩
          · have he : (b, a) = e := List.mem_singleton.mp hd
            subst he
            exact absurd (by simp [ha, hb]) hm
      · rintro ⟨ha, hb, hab | hab⟩
        · exact ⟨ha, hb, Or.inl (List.mem_append_left _ hab)⟩
        · exact ⟨ha, hb, Or.inr (List.mem_append_left _ hab)⟩
    intro i j
    unfold Connected
    rw [hadj]
    exact h i j

theorem foldl_linkConstraint_labelsAgree (bodies : List CollisionBody)
    (edges done : List (Nat × Nat)) (label : Nat → Nat) (h : LabelsAgree bodies done label) :
    LabelsAgree bodies (done ++ edges) (edges.foldl (linkConstraint bodies) label) := by
  induction edges generalizing done label with
  | nil => simpa using h
  | cons e es ih =>
    have := ih (done ++ [e]) _ (linkConstraint_labelsAgree bodies done label e h)
    simpa using this

theorem islandLabels_labelsAgree (bodies : List CollisionBody) (edges : List (Nat × Nat)) :
    LabelsAgree bodies edges (islandLabels bodies edges) := by
  have := foldl_linkConstraint_labelsAgree bodies edges [] _ (labelsAgree_nil bodies)
  simpa using this

theorem islandMember_lt {bodies : List CollisionBody} {i : Nat}
    (h : islandMember bodies i = true) : i < bodies.length := by
  unfold islandMember at h
  by_contra hn
  rw [List.getElem?_eq_none (by omega)] at h
  simp at h

theorem islandMember_iff (bodies : List CollisionBody) (i : Nat) :
    islandMember bodies i = true ↔
      ∃ body, bodies[i]? = some body ∧ body.mType ≠ .STATIC ∧ body.mIsSleeping = false := by
  unfold islandMember
  cases hb : bodies[i]? with
  | none => simp
  | some body => simp [CollisionBody.getType]

theorem mem_buildIslands (bodies : List CollisionBody) (manifolds : List ContactManifold)
    (joints : List Joint) (isl : List Nat) :
    isl ∈ buildIslands bodies manifolds joints ↔
      ∃ i, islandMember bodies i = true ∧
        isl = ((List.range bodies.length).filter (islandMember bodies)).filter
          (fun j => decide (islandLabels bodies (constraintPairs manifolds joints) j =
            islandLabels bodies (constraintPairs manifolds joints) i)) := by
  simp only [buildIslands, List.mem_dedup, List.mem_map, List.mem_filter, List.mem_range]
  constructor
  · rintro ⟨i, ⟨-, hi⟩, rfl⟩
    exact ⟨i, hi, rfl⟩
  · rintro ⟨i, hi, rfl⟩
    exact ⟨i, ⟨islandMember_lt hi, hi⟩, rfl⟩

theorem mem_island_iff (bodies : List CollisionBody) (label : Nat → Nat) (i j : Nat) :
    j ∈ ((List.range bodies.length).filter (islandMember bodies)).filter
        (fun j => decide (label j = label i)) ↔
      islandMember bodies j = true ∧ label j = label i := by
  simp only [List.mem_filter, List.mem_range, decide_eq_true_eq]
  constructor
  · rintro ⟨⟨-, h1⟩, h2⟩
    exact ⟨h1, h2⟩
  · rintro ⟨h1, h2⟩
    exact ⟨⟨islandMember_lt h1, h1⟩, h2⟩

/-- C10: the islands form a partition of the awake non-static bodies: every such body is in
an island, only such bodies are, no island is empty and two islands that share a body are
the same island; two awake non-static bodies are in the same island exactly when a chain of
contacts or joints between awake non-static bodies connects them, so that a chain through a
static or sleeping body connects nothing. -/
theorem buildIslands_partition (bodies : List CollisionBody)
    (manifolds : List ContactManifold) (joints : List Joint) :
    (∀ i, (∃ isl ∈ buildIslands bodies manifolds joints, i ∈ isl) ↔
      ∃ body, bodies[i]? = some body ∧ body.mType ≠ .STATIC ∧ body.mIsSleeping = false) ∧
    (∀ isl ∈ buildIslands bodies manifolds joints, isl ≠ []) ∧
    (∀ isl₁ ∈ buildIslands bodies manifolds joints,
      ∀ isl₂ ∈ buildIslands bodies manifolds joints,
        ∀ i, i ∈ isl₁ → i ∈ isl₂ → isl₁ = isl₂) ∧
    (∀ i j, (∃ isl ∈ buildIslands bodies manifolds joints, i ∈ isl ∧ j ∈ isl) ↔
      (islandMember bodies i = true ∧ islandMember bodies j = true ∧
        Connected bodies (constraintPairs manifolds joints) i j)) := by
  have hagree := islandLabels_labelsAgree bodies (constraintPairs manifolds joints)
  refine ⟨?_, ?_, ?_, ?_⟩
  · intro i
    rw [← islandMember_iff]
    constructor
    · rintro ⟨isl, hisl, hi⟩
      obtain ⟨k, -, rfl⟩ := (mem_buildIslands _ _ _ _).mp hisl
      exact ((mem_island_iff _ _ _ _).mp hi).1
    · intro hi
      exact ⟨_, (mem_buildIslands _ _ _ _).mpr ⟨i, hi, rfl⟩,
        (mem_island_iff _ _ _ _).mpr ⟨hi, rfl⟩⟩
  · intro isl hisl hnil
    obtain ⟨k, hk, rfl⟩ := (mem_buildIslands _ _ _ _).mp hisl
    have : k ∈ ((List.range bodies.length).filter (islandMember bodies)).filter
        (fun j => decide (islandLabels bodies (constraintPairs manifolds joints) j =
          islandLabels bodies (constraintPairs manifolds joints) k)) :=
      (mem_island_iff _ _ _ _).mpr ⟨hk, rfl⟩
    rw [hnil] at this
    cases this
  · intro isl₁ h₁ isl₂ h₂ i hi₁ hi₂
    obtain ⟨a, -, rfl⟩ := (mem_buildIslands _ _ _ _).mp h₁
    obtain ⟨b, -, rfl⟩ := (mem_buildIslands _ _ _ _).mp h₂
    have ha := ((mem_island_iff _ _ _ _).mp hi₁).2
    have hb := ((mem_island_iff _ _ _ _).mp hi₂).2
    rw [← ha, ← hb]
  · intro i j
    constructor
    · rintro ⟨isl, hisl, hi, hj⟩
      obtain ⟨k, -, rfl⟩ := (mem_buildIslands _ _ _ _).mp hisl
      have hi' := (mem_island_iff _ _ _ _).mp hi
      have hj' := (mem_island_iff _ _ _ _).mp hj
      exact ⟨hi'.1, hj'.1, (hagree i j).mp (hi'.2.trans hj'.2.symm)⟩
    · rintro ⟨hi, hj, hc⟩
      exact ⟨_, (mem_buildIslands _ _ _ _).mpr ⟨j, hj, rfl⟩,
        (mem_island_iff _ _ _ _).mpr ⟨hi, (hagree i j).mpr hc⟩,
        (mem_island_iff _ _ _ _).mpr ⟨hj, rfl⟩⟩

/-- A static body touching two dynamic bodies does not put them in the same island: each of
the two is an island of its own, and the static body is in none. -/
theorem buildIslands_static_between :
    buildIslands exampleBodies exampleManifolds [] = [[1], [2]] := by
  decide

/-! ### Testbed scene -/

theorem createObjects_getElem? (kind : ObjectKind) (mass : Option ℚ) (position : Nat → Vector3)
    (indices : List Nat) (world : DynamicsWorld) (j i : Nat) (h : indices[j]? = some i) :
    (createObjects kind mass position indices world).2[j]? =
      some ⟨kind, position i, mass, world.mCurrentBodyID + j⟩ := by
  induction indices generalizing world j with
  | nil => simp at h
  | cons i0 rest ih =>
    cases j with
    | zero =>
      simp only [List.getElem?_cons_zero, Option.some.injEq] at h
      subst h
      simp [createObjects, createObject, DynamicsWorld.createRigidBody]
    | succ j' =>
      simp only [List.getElem?_cons_succ] at h
      simp only [createObjects, List.getElem?_cons_succ]
      rw [ih _ j' h]
      simp [createObject, DynamicsWorld.createRigidBody, DynamicsWorld.setBounciness]
      omega

theorem createObjects_range_getElem? (kind : ObjectKind) (mass : Option ℚ)
    (position : Nat → Vector3) (n : Nat) (world : DynamicsWorld) (i : Nat) (h : i < n) :
    (createObjects kind mass position (List.range n) world).2[i]? =
      some ⟨kind, position i, mass, world.mCurrentBodyID + i⟩ :=
  createObjects_getElem? kind mass position (List.range n) world i i (List.getElem?_range h)

/-- C11: for each of the seven classes of objects and every index `i` below the count of
the class, `reset()` calls `resetTransform` on object `i` with the position that the
constructor gave to that object when it created it (same radius, angle factor, base height
and height increment) and with the identity orientation; and every call of `reset()` on
that object passes this transform. -/
theorem CollisionShapesScene.reset_position_eq_constructor (c : SceneConstants) (m : FloatMath)
    (defaults : WorldSettings) (baseSettings : EngineSettings) (k : ObjectKind) (i : Nat)
    (h : i < c.count k) :
    ∃ obj, ((CollisionShapesScene.new c m defaults baseSettings).objects k)[i]? = some obj ∧
      obj.kind = k ∧
      (⟨k, i, ⟨obj.position, Quaternion.identity⟩⟩ : ResetCall) ∈
        CollisionShapesScene.reset c m ∧
      ∀ call ∈ CollisionShapesScene.reset c m, call.kind = k → call.index = i →
        call.transform = ⟨obj.position, Quaternion.identity⟩ := by
  cases k <;>
  · simp only [SceneConstants.count] at h
    refine ⟨_, createObjects_range_getElem? _ _ _ _ _ i h, rfl, ?_, ?_⟩
    · simp only [CollisionShapesScene.reset, List.mem_append, List.mem_map, List.mem_range]
      first
        | (left; left; left; left; left; left; exact ⟨i, h, rfl⟩)
        | (left; left; left; left; left; right; exact ⟨i, h, rfl⟩)
        | (left; left; left; left; right; exact ⟨i, h, rfl⟩)
        | (left; left; left; right; exact ⟨i, h, rfl⟩)
        | (left; left; right; exact ⟨i, h, rfl⟩)
        | (left; right; exact ⟨i, h, rfl⟩)
        | (right; exact ⟨i, h, rfl⟩)
    · intro call hcall hk hi
      simp only [CollisionShapesScene.reset, List.mem_append, List.mem_map, List.mem_range]
        at hcall
      rcases hcall with ((((((⟨j, -, rfl⟩ | ⟨j, -, rfl⟩) | ⟨j, -, rfl⟩) | ⟨j, -, rfl⟩) |
        ⟨j, -, rfl⟩) | ⟨j, -, rfl⟩) | ⟨j, -, rfl⟩) <;>
      first
        | (simp only at hi; subst hi; rfl)
        | (simp at hk)

/-- Witness for C11: the second box of the example scene. -/
theorem CollisionShapesScene.reset_position_eq_constructor_witness :
    1 < exampleSceneConstants.count .box ∧
    ∃ obj, ((CollisionShapesScene.new exampleSceneConstants exampleFloatMath
        exampleWorldSettings exampleEngineSettings).objects .box)[1]? = some obj ∧
      obj.kind = .box ∧
      (⟨.box, 1, ⟨obj.position, Quaternion.identity⟩⟩ : ResetCall) ∈
        CollisionShapesScene.reset exampleSceneConstants exampleFloatMath ∧
      ∀ call ∈ CollisionShapesScene.reset exampleSceneConstants exampleFloatMath,
        call.kind = .box → call.index = 1 →
          call.transform = ⟨obj.position, Quaternion.identity⟩ :=
  ⟨by decide, CollisionShapesScene.reset_position_eq_constructor exampleSceneConstants
    exampleFloatMath exampleWorldSettings exampleEngineSettings .box 1 (by decide)⟩

theorem CollisionShapesScene.updatePhysics_calls (scene : CollisionShapesScene) :
    scene.updatePhysics.mDynamicsWorld.calls = scene.mDynamicsWorld.calls ++
      [.setIsGratityEnabled scene.mEngineSettings.isGravityEnabled,
       .setGravity scene.mEngineSettings.gravity,
       .enableSleeping scene.mEngineSettings.isSleepingEnabled,
       .setSleepLinearVelocity scene.mEngineSettings.sleepLinearVelocity,
       .setSleepAngularVelocity scene.mEngineSettings.sleepAngularVelocity,
       .setNbIterationsPositionSolver scene.mEngineSettings.nbPositionSolverIterations,
       .setNbIterationsVelocitySolver scene.mEngineSettings.nbVelocitySolverIterations,
       .setTimeBeforeSleep scene.mEngineSettings.timeBeforeSleep,
       .update scene.mEngineSettings.timeStep] := by
  simp [CollisionShapesScene.updatePhysics, DynamicsWorld.setIsGratityEnabled,
    DynamicsWorld.setGravity, DynamicsWorld.enableSleeping,
    DynamicsWorld.setSleepLinearVelocity, DynamicsWorld.setSleepAngularVelocity,
    DynamicsWorld.setNbIterationsPositionSolver, DynamicsWorld.setNbIterationsVelocitySolver,
    DynamicsWorld.setTimeBeforeSleep, DynamicsWorld.update]

theorem CollisionShapesScene.updatePhysics_settings (scene : CollisionShapesScene) :
    scene.updatePhysics.mDynamicsWorld.settings =
      ⟨scene.mEngineSettings.isGravityEnabled, scene.mEngineSettings.gravity,
       scene.mEngineSettings.isSleepingEnabled, scene.mEngineSettings.sleepLinearVelocity,
       scene.mEngineSettings.sleepAngularVelocity,
       scene.mEngineSettings.nbPositionSolverIterations,
       scene.mEngineSettings.nbVelocitySolverIterations,
       scene.mEngineSettings.timeBeforeSleep⟩ := rfl

theorem CollisionShapesScene.updatePhysics_engineSettings (scene : CollisionShapesScene) :
    scene.updatePhysics.mEngineSettings = scene.mEngineSettings := rfl

theorem CollisionShapesScene.iterate_updatePhysics_engineSettings
    (scene : CollisionShapesScene) (n : Nat) :
    (CollisionShapesScene.updatePhysics^[n] scene).mEngineSettings = scene.mEngineSettings := by
  induction n with
  | zero => rfl
  | succ n ih =>
    rw [Function.iterate_succ_apply', CollisionShapesScene.updatePhysics_engineSettings, ih]

theorem CollisionShapesScene.updatePhysics_settings_of_agree (scene : CollisionShapesScene)
    (h : scene.SettingsAgree) :
    scene.updatePhysics.mDynamicsWorld.settings = scene.mDynamicsWorld.settings := by
  rw [CollisionShapesScene.updatePhysics_settings]
  obtain ⟨h1, h2, h3, h4, h5, h6, h7, h8⟩ := h
  rw [h1, h2, h3, h4, h5, h6, h7, h8]

theorem CollisionShapesScene.updatePhysics_agree (scene : CollisionShapesScene)
    (h : scene.SettingsAgree) : scene.updatePhysics.SettingsAgree := by
  unfold CollisionShapesScene.SettingsAgree
  rw [CollisionShapesScene.updatePhysics_settings_of_agree scene h,
    CollisionShapesScene.updatePhysics_engineSettings]
  exact h

theorem CollisionShapesScene.iterate_updatePhysics_agree (scene : CollisionShapesScene)
    (h : scene.SettingsAgree) (n : Nat) :
    (CollisionShapesScene.updatePhysics^[n] scene).SettingsAgree ∧
      (CollisionShapesScene.updatePhysics^[n] scene).mDynamicsWorld.settings =
        scene.mDynamicsWorld.settings := by
  induction n with
  | zero => exact ⟨h, rfl⟩
  | succ n ih =>
    rw [Function.iterate_succ_apply']
    exact ⟨CollisionShapesScene.updatePhysics_agree _ ih.1,
      (CollisionShapesScene.updatePhysics_settings_of_agree _ ih.1).trans ih.2⟩

theorem DynamicsWorld.setBounciness_settings (world : DynamicsWorld) (id : Nat) (value : ℚ) :
    (world.setBounciness id value).settings = world.settings := rfl

theorem createObjects_settings (kind : ObjectKind) (mass : Option ℚ) (position : Nat → Vector3)
    (indices : List Nat) (world : DynamicsWorld) :
    (createObjects kind mass position indices world).1.settings = world.settings := by
  induction indices generalizing world with
  | nil => rfl
  | cons i rest ih =>
    simp only [createObjects]
    rw [ih]
    rfl

theorem CollisionShapesScene.new_world_settings (c : SceneConstants) (m : FloatMath)
    (defaults : WorldSettings) (baseSettings : EngineSettings) :
    (CollisionShapesScene.new c m defaults baseSettings).mDynamicsWorld.settings =
      { defaults with gravity := ⟨0, -(981 / 100), 0⟩, nbVelocitySolverIterations := 15 } := by
  simp only [CollisionShapesScene.new, DynamicsWorld.setBounciness, DynamicsWorld.setBodyType,
    createObject, DynamicsWorld.createRigidBody, createObjects_settings]
  rfl

theorem CollisionShapesScene.new_agree (c : SceneConstants) (m : FloatMath)
    (defaults : WorldSettings) (baseSettings : EngineSettings) :
    (CollisionShapesScene.new c m defaults baseSettings).SettingsAgree :=
  ⟨rfl, rfl, rfl, rfl, rfl, rfl, rfl, rfl⟩

theorem CollisionShapesScene.new_timeStep (c : SceneConstants) (m : FloatMath)
    (defaults : WorldSettings) (baseSettings : EngineSettings) :
    (CollisionShapesScene.new c m defaults baseSettings).mEngineSettings.timeStep =
      baseSettings.timeStep := rfl

/-- C12, as stated, fails: on the scene built over engine settings whose time step is 1/30,
`updatePhysics()` passes 1/30 to the update of the world, and not the 1/60 of the local
variable of the constructor. -/
theorem CollisionShapesScene.updatePhysics_timeStep_not_constructor_value :
    (CollisionShapesScene.new exampleSceneConstants exampleFloatMath exampleWorldSettings
        exampleEngineSettings).updatePhysics.mDynamicsWorld.calls.getLast? =
      some (.update (1 / 30)) ∧
    CollisionShapesScene.constructorTimeStep = 1 / 60 ∧
    WorldCall.update (1 / 30) ≠ WorldCall.update CollisionShapesScene.constructorTimeStep := by
  refine ⟨?_, rfl, ?_⟩
  · rw [CollisionShapesScene.updatePhysics_calls, CollisionShapesScene.new_timeStep]
    simp [exampleEngineSettings]
  · simp only [CollisionShapesScene.constructorTimeStep, ne_eq, WorldCall.update.injEq]
    norm_num

/-- C12, amended: the delta-time passed to the update of the world in every call of
`updatePhysics()` is `mEngineSettings.timeStep`, which the calls leave unchanged, so the
time step is the same from call to call; the constructor leaves `mEngineSettings.timeStep`
as it found it. -/
theorem CollisionShapesScene.updatePhysics_passes_settings_timeStep :
    (∀ (scene : CollisionShapesScene) (n : Nat),
      (CollisionShapesScene.updatePhysics^[n + 1] scene).mDynamicsWorld.calls.getLast? =
        some (.update scene.mEngineSettings.timeStep) ∧
      (CollisionShapesScene.updatePhysics^[n + 1] scene).mEngineSettings =
        scene.mEngineSettings) ∧
    (∀ (c : SceneConstants) (m : FloatMath) (defaults : WorldSettings)
      (baseSettings : EngineSettings),
      (CollisionShapesScene.new c m defaults baseSettings).mEngineSettings.timeStep =
        baseSettings.timeStep) := by
  refine ⟨fun scene n => ⟨?_, CollisionShapesScene.iterate_updatePhysics_engineSettings _ _⟩,
    fun c m defaults baseSettings => rfl⟩
  rw [Function.iterate_succ_apply', CollisionShapesScene.updatePhysics_calls,
    CollisionShapesScene.iterate_updatePhysics_engineSettings]
  simp

/-- C13: each call of `updatePhysics()` writes the eight engine settings of
`mEngineSettings` into the world, in the order of the source, and then performs exactly one
update of the world: the record of the calls grows by the eight setters and one update, and
after the call each of the eight parameters of the world holds the value of
`mEngineSettings`, whatever it held before, while `mEngineSettings` is unchanged. The
constructor read these same eight parameters from the world into `mEngineSettings`,
velocity-solver iterations being 15; so on the constructed scene, and after any number of
calls, a call leaves the eight parameters of the world as they were, velocity-solver
iterations at 15. -/
theorem CollisionShapesScene.updatePhysics_writes_settings_then_updates :
    (∀ scene : CollisionShapesScene,
      scene.updatePhysics.mDynamicsWorld.calls = scene.mDynamicsWorld.calls ++
        [.setIsGratityEnabled scene.mEngineSettings.isGravityEnabled,
         .setGravity scene.mEngineSettings.gravity,
         .enableSleeping scene.mEngineSettings.isSleepingEnabled,
         .setSleepLinearVelocity scene.mEngineSettings.sleepLinearVelocity,
         .setSleepAngularVelocity scene.mEngineSettings.sleepAngularVelocity,
         .setNbIterationsPositionSolver scene.mEngineSettings.nbPositionSolverIterations,
         .setNbIterationsVelocitySolver scene.mEngineSettings.nbVelocitySolverIterations,
         .setTimeBeforeSleep scene.mEngineSettings.timeBeforeSleep,
         .update scene.mEngineSettings.timeStep]) ∧
    (∀ scene : CollisionShapesScene,
      scene.updatePhysics.mDynamicsWorld.settings.isGravityEnabled =
        scene.mEngineSettings.isGravityEnabled ∧
      scene.updatePhysics.mDynamicsWorld.settings.gravity = scene.mEngineSettings.gravity ∧
      scene.updatePhysics.mDynamicsWorld.settings.isSleepingEnabled =
        scene.mEngineSettings.isSleepingEnabled ∧
      scene.updatePhysics.mDynamicsWorld.settings.sleepLinearVelocity =
        scene.mEngineSettings.sleepLinearVelocity ∧
      scene.updatePhysics.mDynamicsWorld.settings.sleepAngularVelocity =
        scene.mEngineSettings.sleepAngularVelocity ∧
      scene.updatePhysics.mDynamicsWorld.settings.nbPositionSolverIterations =
        scene.mEngineSettings.nbPositionSolverIterations ∧
      scene.updatePhysics.mDynamicsWorld.settings.nbVelocitySolverIterations =
        scene.mEngineSettings.nbVelocitySolverIterations ∧
      scene.updatePhysics.mDynamicsWorld.settings.timeBeforeSleep =
        scene.mEngineSettings.timeBeforeSleep ∧
      scene.updatePhysics.mEngineSettings = scene.mEngineSettings) ∧
    (∀ scene : CollisionShapesScene, scene.SettingsAgree →
      scene.updatePhysics.mDynamicsWorld.settings = scene.mDynamicsWorld.settings) ∧
    (∀ (c : SceneConstants) (m : FloatMath) (defaults : WorldSettings)
      (baseSettings : EngineSettings),
      (CollisionShapesScene.new c m defaults baseSettings).SettingsAgree ∧
      ((CollisionShapesScene.new c m defaults baseSettings).mEngineSettings.isGravityEnabled =
          defaults.isGravityEnabled ∧
        (CollisionShapesScene.new c m defaults baseSettings).mEngineSettings.gravity =
          ⟨0, -(981 / 100), 0⟩ ∧
        (CollisionShapesScene.new c m defaults baseSettings).mEngineSettings.isSleepingEnabled =
          defaults.isSleepingEnabled ∧
        (CollisionShapesScene.new c m defaults baseSettings).mEngineSettings.sleepLinearVelocity =
          defaults.sleepLinearVelocity ∧
        (CollisionShapesScene.new c m defaults baseSettings).mEngineSettings.sleepAngularVelocity
          = defaults.sleepAngularVelocity ∧
        (CollisionShapesScene.new c m defaults
          baseSettings).mEngineSettings.nbPositionSolverIterations =
            defaults.nbPositionSolverIterations ∧
        (CollisionShapesScene.new c m defaults
          baseSettings).mEngineSettings.nbVelocitySolverIterations = 15 ∧
        (CollisionShapesScene.new c m defaults baseSettings).mEngineSettings.timeBeforeSleep =
          defaults.timeBeforeSleep) ∧
      (CollisionShapesScene.new c m defaults baseSettings).mDynamicsWorld.settings.nbVelocitySolverIterations
        = 15 ∧
      ∀ n : Nat,
        (CollisionShapesScene.updatePhysics^[n + 1]
            (CollisionShapesScene.new c m defaults baseSettings)).mDynamicsWorld.settings =
          (CollisionShapesScene.updatePhysics^[n]
            (CollisionShapesScene.new c m defaults baseSettings)).mDynamicsWorld.settings ∧
        (CollisionShapesScene.updatePhysics^[n + 1]
            (CollisionShapesScene.new c m defaults
              baseSettings)).mDynamicsWorld.settings.nbVelocitySolverIterations = 15) := by
  refine ⟨CollisionShapesScene.updatePhysics_calls, ?_,
    CollisionShapesScene.updatePhysics_settings_of_agree, ?_⟩
  · intro scene
    have hs := CollisionShapesScene.updatePhysics_settings scene
    refine ⟨?_, ?_, ?_, ?_, ?_, ?_, ?_, ?_, rfl⟩ <;> rw [hs]
  intro c m defaults baseSettings
  have hagree := CollisionShapesScene.new_agree c m defaults baseSettings
  have hworld := CollisionShapesScene.new_world_settings c m defaults baseSettings
  have h15 : (CollisionShapesScene.new c m defaults
      baseSettings).mDynamicsWorld.settings.nbVelocitySolverIterations = 15 := by
    rw [hworld]
  have hread :
      (CollisionShapesScene.new c m defaults baseSettings).mEngineSettings.isGravityEnabled =
          defaults.isGravityEnabled ∧
        (CollisionShapesScene.new c m defaults baseSettings).mEngineSettings.gravity =
          ⟨0, -(981 / 100), 0⟩ ∧
        (CollisionShapesScene.new c m defaults baseSettings).mEngineSettings.isSleepingEnabled =
          defaults.isSleepingEnabled ∧
        (CollisionShapesScene.new c m defaults baseSettings).mEngineSettings.sleepLinearVelocity =
          defaults.sleepLinearVelocity ∧
        (CollisionShapesScene.new c m defaults baseSettings).mEngineSettings.sleepAngularVelocity
          = defaults.sleepAngularVelocity ∧
        (CollisionShapesScene.new c m defaults
          baseSettings).mEngineSettings.nbPositionSolverIterations =
            defaults.nbPositionSolverIterations ∧
        (CollisionShapesScene.new c m defaults
          baseSettings).mEngineSettings.nbVelocitySolverIterations = 15 ∧
        (CollisionShapesScene.new c m defaults baseSettings).mEngineSettings.timeBeforeSleep =
          defaults.timeBeforeSleep := by
    obtain ⟨h1, h2, h3, h4, h5, h6, h7, h8⟩ := hagree
    rw [h1, h2, h3, h4, h5, h6, h7, h8, hworld]
    exact ⟨rfl, rfl, rfl, rfl, rfl, rfl, rfl, rfl⟩
  refine ⟨hagree, hread, h15, fun n => ?_⟩
  have h1 := CollisionShapesScene.iterate_updatePhysics_agree _ hagree (n + 1)
  have h0 := CollisionShapesScene.iterate_updatePhysics_agree _ hagree n
  exact ⟨h1.2.trans h0.2.symm, by rw [h1.2]; exact h15⟩

theorem DynamicsWorld.setBounciness_ids (world : DynamicsWorld) (id : Nat) (value : ℚ) :
    (world.setBounciness id value).mRigidBodies.map (fun b => b.id) =
      world.mRigidBodies.map (fun b => b.id) := by
  simp only [DynamicsWorld.setBounciness, List.map_map]
  apply List.map_congr_left
  intro b _
  simp only [Function.comp]
  split_ifs <;> rfl

theorem DynamicsWorld.setBodyType_ids (world : DynamicsWorld) (id : Nat) (type : BodyType) :
    (world.setBodyType id type).mRigidBodies.map (fun b => b.id) =
      world.mRigidBodies.map (fun b => b.id) := by
  simp only [DynamicsWorld.setBodyType, List.map_map]
  apply List.map_congr_left
  intro b _
  simp only [Function.comp]
  split_ifs <;> rfl

theorem createObjects_currentBodyID (kind : ObjectKind) (mass : Option ℚ)
    (position : Nat → Vector3) (indices : List Nat) (world : DynamicsWorld) :
    (createObjects kind mass position indices world).1.mCurrentBodyID =
      world.mCurrentBodyID + indices.length := by
  induction indices generalizing world with
  | nil => rfl
  | cons i rest ih =>
    simp only [createObjects, List.length_cons]
    rw [ih]
    simp only [DynamicsWorld.setBounciness, createObject, DynamicsWorld.createRigidBody]
    omega

theorem createObjects_bodies (kind : ObjectKind) (mass : Option ℚ)
    (position : Nat → Vector3) (indices : List Nat) (world : DynamicsWorld) :
    (createObjects kind mass position indices world).2.map (fun o => o.mRigidBody) =
      List.range' world.mCurrentBodyID indices.length := by
  induction indices generalizing world with
  | nil => rfl
  | cons i rest ih =>
    simp only [createObjects, List.length_cons, List.map_cons, List.range'_succ]
    rw [ih]
    rfl

theorem createObjects_world_ids (kind : ObjectKind) (mass : Option ℚ)
    (position : Nat → Vector3) (indices : List Nat) (world : DynamicsWorld) :
    (createObjects kind mass position indices world).1.mRigidBodies.map (fun b => b.id) =
      world.mRigidBodies.map (fun b => b.id) ++
        List.range' world.mCurrentBodyID indices.length := by
  induction indices generalizing world with
  | nil => simp [createObjects]
  | cons i rest ih =>
    simp only [createObjects, List.length_cons, List.range'_succ]
    rw [ih, DynamicsWorld.setBounciness_ids]
    simp [DynamicsWorld.setBounciness, createObject, DynamicsWorld.createRigidBody]

theorem count_destroyObjects (objects : List PhysicsObject) (id : Nat) :
    (destroyObjects objects).count (.destroyRigidBody id) =
      (objects.map (fun o => o.mRigidBody)).count id := by
  induction objects with
  | nil => rfl
  | cons o rest ih =>
    simp only [destroyObjects, List.map_cons, List.count_cons, ih]
    simp

theorem deleteWorld_not_mem_destroyObjects (objects : List PhysicsObject) :
    SceneEvent.deleteWorld ∉ destroyObjects objects := by
  induction objects with
  | nil => simp [destroyObjects]
  | cons o rest ih => simp [destroyObjects, ih]

theorem CollisionShapesScene.count_destructor (scene : CollisionShapesScene) (id : Nat) :
    scene.destructor.count (.destroyRigidBody id) = scene.destroyedBodies.count id := by
  simp only [CollisionShapesScene.destructor, CollisionShapesScene.destroyedBodies,
    List.count_append, count_destroyObjects, List.map_append]
  simp [List.count_cons]

theorem range'_append_range' (s a b : Nat) :
    List.range' s a ++ List.range' (s + a) b = List.range' s (a + b) := by
  rw [List.range'_append_1, Nat.add_comm]

theorem CollisionShapesScene.new_bodies (c : SceneConstants) (m : FloatMath)
    (defaults : WorldSettings) (baseSettings : EngineSettings) :
    (CollisionShapesScene.new c m defaults baseSettings).mDumbbells.map (fun o => o.mRigidBody) =
      List.range' 0 c.NB_COMPOUND_SHAPES ∧
    (CollisionShapesScene.new c m defaults baseSettings).mBoxes.map (fun o => o.mRigidBody) =
      List.range' c.NB_COMPOUND_SHAPES c.NB_BOXES ∧
    (CollisionShapesScene.new c m defaults baseSettings).mSpheres.map (fun o => o.mRigidBody) =
      List.range' (c.NB_COMPOUND_SHAPES + c.NB_BOXES) c.NB_CUBES ∧
    (CollisionShapesScene.new c m defaults baseSettings).mCones.map (fun o => o.mRigidBody) =
      List.range' (c.NB_COMPOUND_SHAPES + c.NB_BOXES + c.NB_CUBES) c.NB_CONES ∧
    (CollisionShapesScene.new c m defaults baseSettings).mCylinders.map (fun o => o.mRigidBody) =
      List.range' (c.NB_COMPOUND_SHAPES + c.NB_BOXES + c.NB_CUBES + c.NB_CONES)
        c.NB_CYLINDERS ∧
    (CollisionShapesScene.new c m defaults baseSettings).mCapsules.map (fun o => o.mRigidBody) =
      List.range' (c.NB_COMPOUND_SHAPES + c.NB_BOXES + c.NB_CUBES + c.NB_CONES +
        c.NB_CYLINDERS) c.NB_CAPSULES ∧
    (CollisionShapesScene.new c m defaults baseSettings).mConvexMeshes.map
        (fun o => o.mRigidBody) =
      List.range' (c.NB_COMPOUND_SHAPES + c.NB_BOXES + c.NB_CUBES + c.NB_CONES +
        c.NB_CYLINDERS + c.NB_CAPSULES) c.NB_MESHES ∧
    (CollisionShapesScene.new c m defaults baseSettings).mFloor.mRigidBody = c.nbObjects ∧
    (CollisionShapesScene.new c m defaults baseSettings).mDynamicsWorld.mRigidBodies.map
        (fun b => b.id) = List.range' 0 (c.nbObjects + 1) := by
  have h0 : ((DynamicsWorld.new defaults ⟨0, -(981 / 100), 0⟩).setNbIterationsVelocitySolver
      15).mCurrentBodyID = 0 := rfl
  have hb0 : ((DynamicsWorld.new defaults ⟨0, -(981 / 100), 0⟩).setNbIterationsVelocitySolver
      15).mRigidBodies = [] := rfl
  refine ⟨?_, ?_, ?_, ?_, ?_, ?_, ?_, ?_, ?_⟩
  iterate 8
    simp only [CollisionShapesScene.new, createObjects_bodies, createObjects_currentBodyID,
      createObject, DynamicsWorld.createRigidBody, List.length_range, h0, Nat.zero_add,
      SceneConstants.nbObjects]
  · simp only [CollisionShapesScene.new, createObjects_bodies, createObjects_currentBodyID,
      createObjects_world_ids, DynamicsWorld.setBounciness_ids, DynamicsWorld.setBodyType_ids,
      createObject, DynamicsWorld.createRigidBody, List.length_range, hb0,
      SceneConstants.nbObjects, List.map_append, List.map_cons, List.map_nil, List.nil_append]
    rw [List.range'_1_concat]
    generalize ((DynamicsWorld.new defaults ⟨0, -(981 / 100), 0⟩).setNbIterationsVelocitySolver
      15).mCurrentBodyID = s at h0 ⊢
    simp only [Nat.add_assoc, range'_append_range']
    subst h0
    simp only [Nat.zero_add]

theorem CollisionShapesScene.new_destroyedBodies_perm (c : SceneConstants) (m : FloatMath)
    (defaults : WorldSettings) (baseSettings : EngineSettings) :
    List.Perm (CollisionShapesScene.new c m defaults baseSettings).destroyedBodies
      (List.range' 0 (c.nbObjects + 1)) := by
  obtain ⟨hd, hb, hs, hco, hcy, hca, hm, hf, -⟩ :=
    CollisionShapesScene.new_bodies c m defaults baseSettings
  simp only [CollisionShapesScene.destroyedBodies, List.map_append]
  rw [hd, hb, hs, hco, hcy, hca, hm, hf]
  simp only [Nat.add_assoc, range'_append_range']
  rw [List.range'_1_concat, Nat.zero_add]
  have hjoin := range'_append_range' 0 c.NB_COMPOUND_SHAPES
    (c.NB_BOXES + (c.NB_CUBES + (c.NB_CONES + (c.NB_CYLINDERS + (c.NB_CAPSULES + c.NB_MESHES)))))
  rw [Nat.zero_add] at hjoin
  have htotal : c.nbObjects = c.NB_COMPOUND_SHAPES +
      (c.NB_BOXES + (c.NB_CUBES + (c.NB_CONES + (c.NB_CYLINDERS +
        (c.NB_CAPSULES + c.NB_MESHES))))) := by
    simp only [SceneConstants.nbObjects, Nat.add_assoc]
  rw [htotal, ← hjoin]
  exact List.Perm.append_right _ List.perm_append_comm

theorem CollisionShapesScene.destructor_deleteWorld_last (scene : CollisionShapesScene) :
    ∃ before, scene.destructor = before ++ [.deleteWorld] ∧ SceneEvent.deleteWorld ∉ before ∧
      ∀ id, SceneEvent.destroyRigidBody id ∈ scene.destructor →
        SceneEvent.destroyRigidBody id ∈ before := by
  refine ⟨[SceneEvent.destroyShader] ++ destroyObjects scene.mBoxes ++
    destroyObjects scene.mSpheres ++ destroyObjects scene.mCones ++
    destroyObjects scene.mCylinders ++ destroyObjects scene.mCapsules ++
    destroyObjects scene.mConvexMeshes ++ destroyObjects scene.mDumbbells ++
    [.destroyRigidBody scene.mFloor.mRigidBody, .deleteObject scene.mFloor.mRigidBody],
    ?_, ?_, ?_⟩
  · simp [CollisionShapesScene.destructor]
  · simp [deleteWorld_not_mem_destroyObjects]
  · intro id hid
    have heq : scene.destructor = ([SceneEvent.destroyShader] ++ destroyObjects scene.mBoxes ++
        destroyObjects scene.mSpheres ++ destroyObjects scene.mCones ++
        destroyObjects scene.mCylinders ++ destroyObjects scene.mCapsules ++
        destroyObjects scene.mConvexMeshes ++ destroyObjects scene.mDumbbells ++
        [.destroyRigidBody scene.mFloor.mRigidBody, .deleteObject scene.mFloor.mRigidBody]) ++
        [.deleteWorld] := by
      simp [CollisionShapesScene.destructor]
    rw [heq] at hid
    rcases List.mem_append.mp hid with h | h
    · exact h
    · simp at h

/-- C14: the destructor calls `destroyRigidBody` exactly once on the rigid body of every
object the constructor created: on every body the constructor left in the dynamics world,
on the body of every object in the seven lists of the scene and on the body of the floor;
and all these calls come before the deletion of the dynamics world, which is the last thing
the destructor does. -/
theorem CollisionShapesScene.destructor_destroys_each_body_once (c : SceneConstants)
    (m : FloatMath) (defaults : WorldSettings) (baseSettings : EngineSettings) :
    (∀ b ∈ (CollisionShapesScene.new c m defaults baseSettings).mDynamicsWorld.mRigidBodies,
      (CollisionShapesScene.new c m defaults baseSettings).destructor.count
        (.destroyRigidBody b.id) = 1) ∧
    (∀ (k : ObjectKind),
      ∀ obj ∈ (CollisionShapesScene.new c m defaults baseSettings).objects k,
        (CollisionShapesScene.new c m defaults baseSettings).destructor.count
          (.destroyRigidBody obj.mRigidBody) = 1) ∧
    (CollisionShapesScene.new c m defaults baseSettings).destructor.count
      (.destroyRigidBody (CollisionShapesScene.new c m defaults baseSettings).mFloor.mRigidBody)
        = 1 ∧
    ∃ before, (CollisionShapesScene.new c m defaults baseSettings).destructor =
        before ++ [.deleteWorld] ∧ SceneEvent.deleteWorld ∉ before ∧
      ∀ id, SceneEvent.destroyRigidBody id ∈
        (CollisionShapesScene.new c m defaults baseSettings).destructor →
          SceneEvent.destroyRigidBody id ∈ before := by
  have hperm := CollisionShapesScene.new_destroyedBodies_perm c m defaults baseSettings
  have hnodup : (CollisionShapesScene.new c m defaults baseSettings).destroyedBodies.Nodup :=
    hperm.nodup_iff.mpr (List.nodup_range' 0 (c.nbObjects + 1))
  have hcount : ∀ id, id ∈ (CollisionShapesScene.new c m defaults baseSettings).destroyedBodies →
      (CollisionShapesScene.new c m defaults baseSettings).destructor.count
        (.destroyRigidBody id) = 1 := by
    intro id hid
    rw [CollisionShapesScene.count_destructor]
    exact List.count_eq_one_of_mem hnodup hid
  refine ⟨?_, ?_, ?_, ?_⟩
  · intro b hb
    apply hcount
    rw [hperm.mem_iff, ← (CollisionShapesScene.new_bodies c m defaults baseSettings).2.2.2.2.2.2.2.2]
    exact List.mem_map_of_mem (fun b => b.id) hb
  · intro k obj hobj
    apply hcount
    have hmem := List.mem_map_of_mem (fun o => o.mRigidBody) hobj
    simp only [CollisionShapesScene.destroyedBodies, List.map_append, List.mem_append]
    cases k <;> simp only [CollisionShapesScene.objects] at hmem <;> simp [hmem]
  · apply hcount
    simp [CollisionShapesScene.destroyedBodies]
  · exact CollisionShapesScene.destructor_deleteWorld_last _

end reactphysics3d
